import Mathlib

/-!
# Raspberry Pi Pico counter driver (`drivers/counter/counter_rpi_pico_timer.c`)

A shallow embedding of the driver's alarm-channel logic.

* Pointers (`counter_alarm_callback_t`, `void *`) are natural numbers, `0` being `NULL`.
* 32-bit registers and `uint32_t` values are natural numbers; arithmetic that can
  overflow is reduced `% 2 ^ 32` where the C code computes it.
* The register block `timer_hw_t` is a record of the values the driver reads and
  stores; `timerawl` is the counter reading seen by the operation being run.
* An access `channels[chan]` or `alarm[chan]` outside the array is undefined
  behaviour in C; every driver function returns `Option`, and `none` stands for it.
* A call through a callback pointer is recorded as a `callback_call` in the
  `calls` list of the function's outcome, together with the device state at the
  moment of the call.
* The order of the stores of `set_alarm` and `cancel_alarm` is given by their
  `_writes` lists, which replay to the device the functions return.
* A configuration record is read through a pointer of another struct type by way
  of its 32-bit words in memory order (`counter_rpi_config.words`).
-/

namespace CounterRpi

/-! ## Constants -/

/-- The driver's `#define TIMER_MAX_CHANNEL 4`. -/
def TIMER_MAX_CHANNEL : Nat := 4

/-- The driver's `#define FREQ 1000000U`. -/
def FREQ : Nat := 1000000

/-- Modelled from the spec: `UINT32_MAX` of `<stdint.h>`, the full unsigned 32-bit
range (spec: "here, `0xFFFFFFFF`"). -/
def UINT32_MAX : Nat := 0xFFFFFFFF

/-- Modelled from the spec: the errno value behind `InvalidArgument`
(`EINVAL` of `<errno.h>`, not part of the driver file). -/
def EINVAL : Int := 22

/-- Modelled from the spec: the errno value behind `Busy`
(`EBUSY` of `<errno.h>`, not part of the driver file). -/
def EBUSY : Int := 16

/-- Modelled from the spec: the errno value behind `NotSupported`
(`ENOTSUP` of `<errno.h>`, not part of the driver file). -/
def ENOTSUP : Int := 134

/-- Modelled from the spec: the "absolute" flag of an alarm configuration
(`COUNTER_ALARM_CFG_ABSOLUTE` of `<zephyr/drivers/counter.h>`, bit 0 of `flags`). -/
def COUNTER_ALARM_CFG_ABSOLUTE : Nat := 1

/-- Modelled from the spec: the count-up flag of the device configuration
(`COUNTER_CONFIG_INFO_COUNT_UP` of `<zephyr/drivers/counter.h>`). -/
def COUNTER_CONFIG_INFO_COUNT_UP : Nat := 1

/-- Modelled from the spec: the run value of the run/pause control register
(`TIMER_PAUSE_RESET` of the hardware header). -/
def TIMER_PAUSE_RESET : Nat := 0

/-- Modelled from the spec: the pause value of the run/pause control register
(`TIMER_PAUSE_BITS` of the hardware header). -/
def TIMER_PAUSE_BITS : Nat := 1

/-- Modelled from the spec: the hardware register base reference (`timer_hw` of
the hardware header, the address of the timer's register block). -/
def TIMER_BASE : Nat := 0x40054000

/-! ## Integer helpers -/

/-- The macro `BIT(n)`, that is `1UL << n`. -/
def BIT (n : Nat) : Nat := 2 ^ n

/-- Bitwise complement of a 32-bit value (`~x`). -/
def not32 (x : Nat) : Nat := 0xFFFFFFFF ^^^ x

/-- The macro `WRITE_BIT(var, bit, set)`:
`var = set ? (var | BIT(bit)) : (var & ~BIT(bit))`; the result is the new `var`. -/
def WRITE_BIT (var bit : Nat) (set : Bool) : Nat :=
  if set then var ||| BIT bit else var &&& not32 (BIT bit)

/-- Conversion of a `uint32_t` to `int` (two's complement, 32 bits). -/
def to_int (x : Nat) : Int :=
  if x % 2 ^ 32 < 2 ^ 31 then ((x % 2 ^ 32 : Nat) : Int) else ((x % 2 ^ 32 : Nat) : Int) - 2 ^ 32

/-- Conversion of an `int` to `uint32_t` (reduction modulo `2 ^ 32`). -/
def to_uint32 (i : Int) : Nat := (i % 2 ^ 32).toNat

/-- Conversion of an `int` to `uint8_t` (reduction modulo `2 ^ 8`). -/
def to_uint8 (i : Int) : Nat := (i % 2 ^ 8).toNat

/-! ## Data model -/

/-- Modelled from the spec: `struct counter_config_info`
(`<zephyr/drivers/counter.h>`): maximum top value, tick frequency, flags and
channel count of a device. -/
structure counter_config_info where
  max_top_value : Nat
  freq : Nat
  flags : Nat
  channels : Nat

/-- The driver's `struct counter_rpi_config`: the pointer `timer_dev` first, then
`info`. `timer_dev` is the address of the register block; the contents of the
block it points to are the `timer_hw` field of `device`. -/
structure counter_rpi_config where
  timer_dev : Nat
  info : counter_config_info

/-- The driver's `struct counter_rpi_channel_data`. -/
structure counter_rpi_channel_data where
  callback : Nat
  user_data : Nat

/-- The driver's `struct counter_rpi_data`: `channels[TIMER_MAX_CHANNEL]`. -/
structure counter_rpi_data where
  channels : Fin TIMER_MAX_CHANNEL → counter_rpi_channel_data

/-- Modelled from the spec: the hardware-register interface (`timer_hw_t` of the
hardware header): free-running counter read `timerawl`, per-channel compare value
`alarm`, per-channel `armed` bits, run/pause control `pause`, raw latched
interrupt bits `intr`, interrupt-enable bits `inte`, and the interrupt status
`ints`. -/
structure timer_hw_t where
  alarm : Fin TIMER_MAX_CHANNEL → Nat
  armed : Nat
  timerawl : Nat
  pause : Nat
  intr : Nat
  inte : Nat
  ints : Nat

/-- Modelled from the spec: an alarm configuration (`struct counter_alarm_cfg` of
`<zephyr/drivers/counter.h>`): callback, target tick value, user data, flags. -/
structure counter_alarm_cfg where
  callback : Nat
  ticks : Nat
  user_data : Nat
  flags : Nat

/-- Modelled from the spec: a top-value configuration (`struct counter_top_cfg` of
`<zephyr/drivers/counter.h>`): top value, callback, user data, flags. -/
structure counter_top_cfg where
  ticks : Nat
  callback : Nat
  user_data : Nat
  flags : Nat

/-- A device instance (`struct device`): its configuration, its driver data and
the register block of its timer. -/
structure device where
  config : counter_rpi_config
  data : counter_rpi_data
  timer_hw : timer_hw_t

/-- One call `cb(dev, chan, ticks, user_data)` through a callback pointer; `dev`
is the device as it is when the call is made. -/
structure callback_call where
  callback : Nat
  dev : device
  chan : Nat
  ticks : Nat
  user_data : Nat

/-- What running a driver function gives: its return value, the device
afterwards, and the callback calls it made, in order. -/
structure outcome (α : Type) where
  ret : α
  dev : device
  calls : List callback_call

/-- The configuration record `rpi_counter_##idx##_config` of `COUNTER_DEVICE_INIT`. -/
def rpi_counter_config : counter_rpi_config :=
  { timer_dev := TIMER_BASE
    info := { max_top_value := UINT32_MAX
              freq := FREQ
              flags := COUNTER_CONFIG_INFO_COUNT_UP
              channels := TIMER_MAX_CHANNEL } }

/-! ## Array accesses -/

/-- Read of `data->channels[chan]`. -/
def channel_get (data : counter_rpi_data) (chan : Nat) : Option counter_rpi_channel_data :=
  if h : chan < TIMER_MAX_CHANNEL then some (data.channels ⟨chan, h⟩) else none

/-- Store `data->channels[chan].callback = v`. -/
def channel_set_callback (data : counter_rpi_data) (chan v : Nat) : Option counter_rpi_data :=
  if h : chan < TIMER_MAX_CHANNEL then
    some { channels := Function.update data.channels ⟨chan, h⟩
                         { data.channels ⟨chan, h⟩ with callback := v } }
  else none

/-- Store `data->channels[chan].user_data = v`. -/
def channel_set_user_data (data : counter_rpi_data) (chan v : Nat) : Option counter_rpi_data :=
  if h : chan < TIMER_MAX_CHANNEL then
    some { channels := Function.update data.channels ⟨chan, h⟩
                         { data.channels ⟨chan, h⟩ with user_data := v } }
  else none

/-- Read of `timer_dev->alarm[chan]`. -/
def alarm_get (hw : timer_hw_t) (chan : Nat) : Option Nat :=
  if h : chan < TIMER_MAX_CHANNEL then some (hw.alarm ⟨chan, h⟩) else none

/-- Store `timer_dev->alarm[chan] = v`. -/
def alarm_set (hw : timer_hw_t) (chan v : Nat) : Option timer_hw_t :=
  if h : chan < TIMER_MAX_CHANNEL then
    some { hw with alarm := Function.update hw.alarm ⟨chan, h⟩ v }
  else none

/-! ## Driver functions -/

/-- The driver's `counter_rpi_start`. -/
def counter_rpi_start (dev : device) : Option (outcome Int) :=
  let timer_dev := dev.timer_hw
  let timer_dev := { timer_dev with pause := TIMER_PAUSE_RESET }
  some { ret := 0, dev := { dev with timer_hw := timer_dev }, calls := [] }

/-- The driver's `counter_rpi_stop`. -/
def counter_rpi_stop (dev : device) : Option (outcome Int) :=
  let timer_dev := dev.timer_hw
  let timer_dev := { timer_dev with pause := TIMER_PAUSE_BITS }
  some { ret := 0, dev := { dev with timer_hw := timer_dev }, calls := [] }

/-- The driver's `counter_rpi_set_alarm`. -/
def counter_rpi_set_alarm (dev : device) (chan : Nat) (alarm_cfg : counter_alarm_cfg) :
    Option (outcome Int) :=
  let config := dev.config
  let data := dev.data
  let timer_dev := dev.timer_hw
  if chan ≥ config.info.channels then
    some { ret := -EINVAL, dev := dev, calls := [] }
  else
    (channel_get data chan).bind fun ch =>
    if ch.callback ≠ 0 then
      some { ret := -EBUSY, dev := dev, calls := [] }
    else
      let ticks := alarm_cfg.ticks
      let ticks :=
        if alarm_cfg.flags &&& COUNTER_ALARM_CFG_ABSOLUTE ≠ 0 then ticks
        else (ticks + timer_dev.timerawl) % 2 ^ 32
      let timer_dev := { timer_dev with inte := WRITE_BIT timer_dev.inte chan false }
      (channel_set_callback data chan alarm_cfg.callback).bind fun data =>
      (channel_set_user_data data chan alarm_cfg.user_data).bind fun data =>
      (alarm_set timer_dev chan ticks).bind fun timer_dev =>
      let timer_dev := { timer_dev with intr := WRITE_BIT timer_dev.intr chan true }
      let timer_dev := { timer_dev with inte := WRITE_BIT timer_dev.inte chan true }
      some { ret := 0, dev := { dev with data := data, timer_hw := timer_dev }, calls := [] }

/-- The driver's `counter_rpi_cancel_alarm`. -/
def counter_rpi_cancel_alarm (dev : device) (chan : Nat) : Option (outcome Int) :=
  let data := dev.data
  let timer_dev := dev.timer_hw
  let timer_dev := { timer_dev with armed := WRITE_BIT timer_dev.armed chan true }
  (channel_set_callback data chan 0).bind fun data =>
  some { ret := 0, dev := { dev with data := data, timer_hw := timer_dev }, calls := [] }

/-- The driver's `counter_rpi_irq_handler`; the interrupt vectors pass the
channel literals `0` to `3`. -/
def counter_rpi_irq_handler (dev : device) (chan : Nat) : Option (outcome Unit) :=
  let data := dev.data
  let timer_dev := dev.timer_hw
  let ticks : Int := to_int timer_dev.timerawl
  let timer_dev := { timer_dev with inte := WRITE_BIT timer_dev.inte chan false }
  (channel_get data chan).bind fun channel =>
  let cb := channel.callback
  let user_data := channel.user_data
  (channel_set_callback data chan 0).bind fun data =>
  (channel_set_user_data data chan 0).bind fun data =>
  let dev := { dev with data := data, timer_hw := timer_dev }
  if cb ≠ 0 then
    some { ret := (), dev := dev,
           calls := [{ callback := cb, dev := dev, chan := to_uint8 chan,
                       ticks := to_uint32 ticks, user_data := user_data }] }
  else
    some { ret := (), dev := dev, calls := [] }

/-- The body of `counter_rpi_timer##idx##_init` that touches driver state: the
loop `for (i = 0; i < ARRAY_SIZE(data->channels); i++)` clearing every channel. -/
def counter_rpi_timer_init (dev : device) : Option (outcome Int) :=
  let data := (List.range TIMER_MAX_CHANNEL).foldl
    (fun (acc : Option counter_rpi_data) i =>
      acc.bind fun d =>
      (channel_set_callback d i 0).bind fun d =>
      channel_set_user_data d i 0)
    (some dev.data)
  data.bind fun data =>
  some { ret := 0, dev := { dev with data := data }, calls := [] }

/-- The driver's `counter_rpi_get_value`; the reading stored through `ticks` is
the return value's second component. -/
def counter_rpi_get_value (dev : device) : Option (outcome (Int × Nat)) :=
  let timer_dev := dev.timer_hw
  some { ret := (0, timer_dev.timerawl), dev := dev, calls := [] }

/-- The driver's `counter_rpi_set_top_value`. -/
def counter_rpi_set_top_value (dev : device) (_cfg : counter_top_cfg) : Option (outcome Int) :=
  some { ret := -ENOTSUP, dev := dev, calls := [] }

/-- The driver's `counter_rpi_get_pending_int`:
`((timer_dev->ints & 0b111) != 0) ? 1 : 0`. -/
def counter_rpi_get_pending_int (dev : device) : Option (outcome Nat) :=
  let timer_dev := dev.timer_hw
  some { ret := if timer_dev.ints &&& 0b111 ≠ 0 then 1 else 0, dev := dev, calls := [] }

/-- The 32-bit words of a `struct counter_config_info` in memory order:
`max_top_value`, `freq`, then the word holding the two `uint8_t` fields `flags`
and `channels`. -/
def counter_config_info.words (info : counter_config_info) : List Nat :=
  [info.max_top_value, info.freq, info.flags % 2 ^ 8 + 2 ^ 8 * (info.channels % 2 ^ 8)]

/-- The 32-bit words of a `struct counter_rpi_config` in memory order: the
pointer `timer_dev`, then the words of `info`. -/
def counter_rpi_config.words (config : counter_rpi_config) : List Nat :=
  config.timer_dev :: config.info.words

/-- Read of `info->max_top_value` through a `const struct counter_config_info *info`
that points at the words `mem`: `max_top_value` is the first member of
`struct counter_config_info`, so the read is of the first word. -/
def read_max_top_value (mem : List Nat) : Option Nat := mem.head?

/-- The driver's `counter_rpi_get_top_value`: `info` is `dev->config`, the
address of the `struct counter_rpi_config`, taken as a
`const struct counter_config_info *`. -/
def counter_rpi_get_top_value (dev : device) : Option (outcome Nat) :=
  let info := dev.config.words
  (read_max_top_value info).map fun v => { ret := v, dev := dev, calls := [] }

/-- The driver's `counter_rpi_get_freq`. -/
def counter_rpi_get_freq (dev : device) : Option (outcome Nat) :=
  let config := dev.config
  some { ret := config.info.freq, dev := dev, calls := [] }

/-! ## Stores in program order -/

/-- One store made by a driver function. -/
inductive write where
  /-- The store `WRITE_BIT(timer_dev->inte, chan, set)`. -/
  | inte (chan : Nat) (set : Bool)
  /-- The store `WRITE_BIT(timer_dev->intr, chan, set)`. -/
  | intr (chan : Nat) (set : Bool)
  /-- The store `WRITE_BIT(timer_dev->armed, chan, set)`. -/
  | armed (chan : Nat) (set : Bool)
  /-- The store `data->channels[chan].callback = v`. -/
  | callback (chan : Nat) (v : Nat)
  /-- The store `data->channels[chan].user_data = v`. -/
  | user_data (chan : Nat) (v : Nat)
  /-- The store `timer_dev->alarm[chan] = v`. -/
  | alarm (chan : Nat) (v : Nat)

/-- The effect of one store on the device. -/
def write.apply (dev : device) : write → Option device
  | .inte chan set =>
    some { dev with timer_hw := { dev.timer_hw with inte := WRITE_BIT dev.timer_hw.inte chan set } }
  | .intr chan set =>
    some { dev with timer_hw := { dev.timer_hw with intr := WRITE_BIT dev.timer_hw.intr chan set } }
  | .armed chan set =>
    some { dev with
      timer_hw := { dev.timer_hw with armed := WRITE_BIT dev.timer_hw.armed chan set } }
  | .callback chan v => (channel_set_callback dev.data chan v).map fun data => { dev with data := data }
  | .user_data chan v =>
    (channel_set_user_data dev.data chan v).map fun data => { dev with data := data }
  | .alarm chan v => (alarm_set dev.timer_hw chan v).map fun hw => { dev with timer_hw := hw }

/-- The effect of a sequence of stores, first store first. -/
def apply_writes (dev : device) : List write → Option device
  | [] => some dev
  | w :: ws => (w.apply dev).bind fun d => apply_writes d ws

/-- The stores of `counter_rpi_set_alarm` in program order: none on the two error
returns, and on the success path the six stores of lines 77 to 84. -/
def counter_rpi_set_alarm_writes (dev : device) (chan : Nat) (alarm_cfg : counter_alarm_cfg) :
    Option (List write) :=
  let config := dev.config
  let data := dev.data
  let timer_dev := dev.timer_hw
  if chan ≥ config.info.channels then
    some []
  else
    (channel_get data chan).bind fun ch =>
    if ch.callback ≠ 0 then
      some []
    else
      let ticks := alarm_cfg.ticks
      let ticks :=
        if alarm_cfg.flags &&& COUNTER_ALARM_CFG_ABSOLUTE ≠ 0 then ticks
        else (ticks + timer_dev.timerawl) % 2 ^ 32
      some [.inte chan false,
            .callback chan alarm_cfg.callback,
            .user_data chan alarm_cfg.user_data,
            .alarm chan ticks,
            .intr chan true,
            .inte chan true]

/-- The stores of `counter_rpi_cancel_alarm` in program order. -/
def counter_rpi_cancel_alarm_writes (_dev : device) (chan : Nat) : List write :=
  [.armed chan true, .callback chan 0]

/-- A store to the callback or the user data of channel `chan`. -/
def write.touches (chan : Nat) : write → Prop
  | .callback c _ => c = chan
  | .user_data c _ => c = chan
  | _ => False

/-- In the sequence `ws`, every store to the callback or user data of channel
`chan` comes after a store that clears the interrupt-enable bit of `chan`. -/
def masked_before_touch (chan : Nat) (ws : List write) : Prop :=
  ∀ (i : Nat) (w : write), ws[i]? = some w → w.touches chan →
    ∃ j, j < i ∧ ws[j]? = some (write.inte chan false)

/-! ## Observations of a channel -/

/-- The callback recorded for channel `chan`. -/
def channel_callback (dev : device) (chan : Nat) : Option Nat :=
  (channel_get dev.data chan).map fun ch => ch.callback

/-- The user data recorded for channel `chan`. -/
def channel_user_data (dev : device) (chan : Nat) : Option Nat :=
  (channel_get dev.data chan).map fun ch => ch.user_data

/-- The interrupt-enable bit of channel `chan` (bit `chan` of `inte`). -/
def inte_bit (dev : device) (chan : Nat) : Bool := dev.timer_hw.inte.testBit chan

/-- The latched-interrupt bit of channel `chan` (bit `chan` of `intr`). -/
def intr_bit (dev : device) (chan : Nat) : Bool := dev.timer_hw.intr.testBit chan

/-- The interrupt status bit of channel `chan` (bit `chan` of `ints`). -/
def ints_bit (dev : device) (chan : Nat) : Bool := dev.timer_hw.ints.testBit chan

/-- Channel `d` looks the same in `dev'` as in `dev`: same callback, user data,
alarm register and interrupt-enable bit. -/
def same_channel (dev dev' : device) (d : Nat) : Prop :=
  channel_callback dev' d = channel_callback dev d ∧
  channel_user_data dev' d = channel_user_data dev d ∧
  alarm_get dev'.timer_hw d = alarm_get dev.timer_hw d ∧
  inte_bit dev' d = inte_bit dev d

/-- Every channel that holds a callback has its interrupt-enable bit set. -/
def callbacks_enabled (dev : device) : Prop :=
  ∀ c cb, channel_callback dev c = some cb → cb ≠ 0 → inte_bit dev c = true

/-! ## Sequences of operations -/

/-- One step of a run of the device: a call of a driver function, a run of the
interrupt dispatcher on a channel, or the hardware counter reaching a new reading
between two calls. -/
inductive Op where
  | start
  | stop
  | set_alarm (chan : Nat) (alarm_cfg : counter_alarm_cfg)
  | cancel_alarm (chan : Nat)
  | irq (chan : Nat)
  | count (timerawl : Nat)

/-- What a run records: the return value of each driver call and each callback
call made by the dispatcher. -/
inductive event where
  | returned (op : Op) (ret : Int)
  | invoked (call : callback_call)

/-- The channel an operation addresses, when it addresses one. -/
def Op.chan? : Op → Option Nat
  | .set_alarm chan _ => some chan
  | .cancel_alarm chan => some chan
  | .irq chan => some chan
  | _ => none

/-- An operation addresses only channels inside the channel array. -/
def Op.in_array (op : Op) : Prop := ∀ c, op.chan? = some c → c < TIMER_MAX_CHANNEL

/-- Runs one operation and records what it returned and which callbacks it called. -/
def step (dev : device) : Op → Option (device × List event)
  | .start => (counter_rpi_start dev).map fun r => (r.dev, [event.returned .start r.ret])
  | .stop => (counter_rpi_stop dev).map fun r => (r.dev, [event.returned .stop r.ret])
  | .set_alarm chan cfg =>
    (counter_rpi_set_alarm dev chan cfg).map fun r =>
      (r.dev, [event.returned (.set_alarm chan cfg) r.ret])
  | .cancel_alarm chan =>
    (counter_rpi_cancel_alarm dev chan).map fun r =>
      (r.dev, [event.returned (.cancel_alarm chan) r.ret])
  | .irq chan => (counter_rpi_irq_handler dev chan).map fun r => (r.dev, r.calls.map event.invoked)
  | .count t => some ({ dev with timer_hw := { dev.timer_hw with timerawl := t % 2 ^ 32 } }, [])

/-- Runs a sequence of operations from `dev`, first operation first. -/
def exec (dev : device) : List Op → Option (device × List event)
  | [] => some (dev, [])
  | op :: ops =>
    (step dev op).bind fun (d, evs) =>
    (exec d ops).map fun (d', evs') => (d', evs ++ evs')

/-- Number of callback calls on channel `c` in a record. -/
def invocations (c : Nat) : List event → Nat
  | [] => 0
  | .invoked call :: evs => (if call.chan = c then 1 else 0) + invocations c evs
  | .returned _ _ :: evs => invocations c evs

/-- Number of `set_alarm` calls on channel `c` that returned success in a record. -/
def successful_set_alarms (c : Nat) : List event → Nat
  | [] => 0
  | .returned (.set_alarm chan _) ret :: evs =>
    (if chan = c ∧ ret = 0 then 1 else 0) + successful_set_alarms c evs
  | _ :: evs => successful_set_alarms c evs

/-- Whether channel `c` holds a callback: `1` if it does, `0` otherwise. -/
def pending (dev : device) (c : Nat) : Nat :=
  match channel_get dev.data c with
  | some ch => if ch.callback ≠ 0 then 1 else 0
  | none => 0

/-! ## Sample states -/

/-- A register block with every register zero except the counter reading. -/
def hw_at (timerawl : Nat) : timer_hw_t :=
  { alarm := fun _ => 0, armed := 0, timerawl := timerawl, pause := 0, intr := 0, inte := 0,
    ints := 0 }

/-- A device with every channel idle and the counter at `timerawl`. -/
def idle_dev (timerawl : Nat) : device :=
  { config := rpi_counter_config
    data := { channels := fun _ => { callback := 0, user_data := 0 } }
    timer_hw := hw_at timerawl }

/-- A device whose channel 1 holds callback `cb` with user data `ud`, the other
channels idle, and the counter at `timerawl`. -/
def armed_dev (cb ud timerawl : Nat) : device :=
  { config := rpi_counter_config
    data := { channels := fun i => if i.val = 1 then { callback := cb, user_data := ud }
                                   else { callback := 0, user_data := 0 } }
    timer_hw := { hw_at timerawl with inte := 2 } }

/-- A device whose interrupt status register holds `ints`, every channel idle. -/
def status_dev (ints : Nat) : device :=
  { idle_dev 0 with timer_hw := { hw_at 0 with ints := ints } }

/-! # Theorems

## Basic facts about array accesses -/

theorem channel_get_of_lt (data : counter_rpi_data) {chan : Nat} (h : chan < TIMER_MAX_CHANNEL) :
    channel_get data chan = some (data.channels ⟨chan, h⟩) := by
  simp [channel_get, h]

theorem channel_set_callback_of_lt (data : counter_rpi_data) {chan : Nat} (v : Nat)
    (h : chan < TIMER_MAX_CHANNEL) :
    channel_set_callback data chan v =
      some { channels := Function.update data.channels ⟨chan, h⟩
                           { data.channels ⟨chan, h⟩ with callback := v } } := by
  simp [channel_set_callback, h]

theorem channel_set_user_data_of_lt (data : counter_rpi_data) {chan : Nat} (v : Nat)
    (h : chan < TIMER_MAX_CHANNEL) :
    channel_set_user_data data chan v =
      some { channels := Function.update data.channels ⟨chan, h⟩
                           { data.channels ⟨chan, h⟩ with user_data := v } } := by
  simp [channel_set_user_data, h]

theorem alarm_set_of_lt (hw : timer_hw_t) {chan : Nat} (v : Nat) (h : chan < TIMER_MAX_CHANNEL) :
    alarm_set hw chan v = some { hw with alarm := Function.update hw.alarm ⟨chan, h⟩ v } := by
  simp [alarm_set, h]

theorem channel_callback_of_lt (dev : device) {chan : Nat} (h : chan < TIMER_MAX_CHANNEL) :
    channel_callback dev chan = some (dev.data.channels ⟨chan, h⟩).callback := by
  simp [channel_callback, channel_get, h]

theorem channel_user_data_of_lt (dev : device) {chan : Nat} (h : chan < TIMER_MAX_CHANNEL) :
    channel_user_data dev chan = some (dev.data.channels ⟨chan, h⟩).user_data := by
  simp [channel_user_data, channel_get, h]

/-- A recorded callback implies the index is inside the array. -/
theorem lt_of_channel_callback {dev : device} {chan cb : Nat}
    (h : channel_callback dev chan = some cb) : chan < TIMER_MAX_CHANNEL := by
  by_contra hlt
  simp [channel_callback, channel_get, hlt] at h

/-- What `set_alarm` does on a channel inside the array that holds no callback. -/
theorem set_alarm_idle (dev : device) {chan : Nat} (cfg : counter_alarm_cfg)
    (hchan : chan < dev.config.info.channels) (hlt : chan < TIMER_MAX_CHANNEL)
    (hidle : channel_callback dev chan = some 0) :
    counter_rpi_set_alarm dev chan cfg = some
      { ret := 0
        dev := { dev with
          data := { channels := Function.update dev.data.channels ⟨chan, hlt⟩
                      { callback := cfg.callback, user_data := cfg.user_data } }
          timer_hw := { dev.timer_hw with
            alarm := Function.update dev.timer_hw.alarm ⟨chan, hlt⟩
              (if cfg.flags &&& COUNTER_ALARM_CFG_ABSOLUTE ≠ 0 then cfg.ticks
               else (cfg.ticks + dev.timer_hw.timerawl) % 2 ^ 32)
            intr := WRITE_BIT dev.timer_hw.intr chan true
            inte := WRITE_BIT (WRITE_BIT dev.timer_hw.inte chan false) chan true } }
        calls := [] } := by
  rw [channel_callback_of_lt dev hlt] at hidle
  have hidle' : (dev.data.channels ⟨chan, hlt⟩).callback = 0 := by simpa using hidle
  simp [counter_rpi_set_alarm, Nat.not_le.mpr hchan, channel_get_of_lt _ hlt, hidle',
    channel_set_callback_of_lt _ _ hlt, channel_set_user_data_of_lt _ _ hlt,
    alarm_set_of_lt _ _ hlt]

/-- What `set_alarm` does on a channel inside the array that holds a callback. -/
theorem set_alarm_busy (dev : device) {chan cb : Nat} (cfg : counter_alarm_cfg)
    (hchan : chan < dev.config.info.channels)
    (hcb : channel_callback dev chan = some cb) (hne : cb ≠ 0) :
    counter_rpi_set_alarm dev chan cfg = some { ret := -EBUSY, dev := dev, calls := [] } := by
  have hlt := lt_of_channel_callback hcb
  rw [channel_callback_of_lt dev hlt] at hcb
  have hcb' : (dev.data.channels ⟨chan, hlt⟩).callback = cb := by simpa using hcb
  simp [counter_rpi_set_alarm, Nat.not_le.mpr hchan, channel_get_of_lt _ hlt, hcb', hne]

/-- C1: on a valid idle channel, `set_alarm` succeeds and the channel's alarm
register then holds the target tick value `V` unmodified when the absolute flag is
set, and `(T + V) mod 2^32` when it is not, `T` being the counter reading. -/
theorem set_alarm_compare_value (dev : device) (chan : Nat) (cfg : counter_alarm_cfg)
    (hchan : chan < dev.config.info.channels)
    (hidle : channel_callback dev chan = some 0) :
    ∃ r, counter_rpi_set_alarm dev chan cfg = some r ∧ r.ret = 0 ∧
      (cfg.flags &&& COUNTER_ALARM_CFG_ABSOLUTE ≠ 0 →
        alarm_get r.dev.timer_hw chan = some cfg.ticks) ∧
      (cfg.flags &&& COUNTER_ALARM_CFG_ABSOLUTE = 0 →
        alarm_get r.dev.timer_hw chan = some ((dev.timer_hw.timerawl + cfg.ticks) % 2 ^ 32)) := by
  have hlt := lt_of_channel_callback hidle
  refine ⟨_, set_alarm_idle dev cfg hchan hlt hidle, rfl, ?_, ?_⟩
  · intro habs
    simp [alarm_get, hlt, habs]
  · intro hrel
    simp [alarm_get, hlt, hrel, Nat.add_comm]

/-- C1 at the wrap-around example `T = 0xFFFFFFF0`, `V = 0x20`: the relative alarm
is stored as `(T + V) mod 2^32`, which is `0x10`. -/
theorem set_alarm_compare_value_witness :
    (0 < (idle_dev 0xFFFFFFF0).config.info.channels ∧
      channel_callback (idle_dev 0xFFFFFFF0) 0 = some 0) ∧
    (0xFFFFFFF0 + 0x20) % 2 ^ 32 = 0x10 ∧
    ∃ r, counter_rpi_set_alarm (idle_dev 0xFFFFFFF0) 0
          { callback := 7, ticks := 0x20, user_data := 9, flags := 0 } = some r ∧ r.ret = 0 ∧
      ((0 : Nat) &&& COUNTER_ALARM_CFG_ABSOLUTE ≠ 0 →
        alarm_get r.dev.timer_hw 0 = some 0x20) ∧
      ((0 : Nat) &&& COUNTER_ALARM_CFG_ABSOLUTE = 0 →
        alarm_get r.dev.timer_hw 0 = some (((idle_dev 0xFFFFFFF0).timer_hw.timerawl + 0x20) % 2 ^ 32)) :=
  ⟨⟨by decide, by decide⟩, by decide,
    set_alarm_compare_value (idle_dev 0xFFFFFFF0) 0
      { callback := 7, ticks := 0x20, user_data := 9, flags := 0 } (by decide) (by decide)⟩

/-- C2: for a channel index at or above the device's channel count, `set_alarm`
returns `-EINVAL` and the device (channel registry and every register) is unchanged. -/
theorem set_alarm_out_of_range (dev : device) (chan : Nat) (cfg : counter_alarm_cfg)
    (hchan : dev.config.info.channels ≤ chan) :
    counter_rpi_set_alarm dev chan cfg = some { ret := -EINVAL, dev := dev, calls := [] } := by
  simp [counter_rpi_set_alarm, hchan]

/-- C2 at channel index 4 of a device with four channels. -/
theorem set_alarm_out_of_range_witness :
    (idle_dev 0).config.info.channels ≤ 4 ∧
    counter_rpi_set_alarm (idle_dev 0) 4 { callback := 7, ticks := 5, user_data := 9, flags := 0 }
      = some { ret := -EINVAL, dev := idle_dev 0, calls := [] } :=
  ⟨by decide, set_alarm_out_of_range (idle_dev 0) 4 _ (by decide)⟩

/-- C3: on a valid channel that holds a callback, `set_alarm` returns `-EBUSY`
and replaces nothing: the device (callback, user data, alarm register,
interrupt-enable and pending bits) is unchanged. -/
theorem set_alarm_armed_channel (dev : device) (chan cb : Nat) (cfg : counter_alarm_cfg)
    (hchan : chan < dev.config.info.channels)
    (hcb : channel_callback dev chan = some cb) (hne : cb ≠ 0) :
    counter_rpi_set_alarm dev chan cfg = some { ret := -EBUSY, dev := dev, calls := [] } :=
  set_alarm_busy dev cfg hchan hcb hne

/-- C3 at channel 1 of a device whose channel 1 holds callback 5. -/
theorem set_alarm_armed_channel_witness :
    (1 < (armed_dev 5 6 0).config.info.channels ∧
      channel_callback (armed_dev 5 6 0) 1 = some 5 ∧ (5 : Nat) ≠ 0) ∧
    counter_rpi_set_alarm (armed_dev 5 6 0) 1
        { callback := 7, ticks := 5, user_data := 9, flags := 0 }
      = some { ret := -EBUSY, dev := armed_dev 5 6 0, calls := [] } :=
  ⟨⟨by decide, by decide, by decide⟩,
    set_alarm_armed_channel (armed_dev 5 6 0) 1 5 _ (by decide) (by decide) (by decide)⟩

/-- What `cancel_alarm` does on a channel inside the array. -/
theorem cancel_alarm_of_lt (dev : device) {chan : Nat} (hlt : chan < TIMER_MAX_CHANNEL) :
    counter_rpi_cancel_alarm dev chan = some
      { ret := 0
        dev := { dev with
          data := { channels := Function.update dev.data.channels ⟨chan, hlt⟩
                      { dev.data.channels ⟨chan, hlt⟩ with callback := 0 } }
          timer_hw := { dev.timer_hw with armed := WRITE_BIT dev.timer_hw.armed chan true } }
        calls := [] } := by
  simp [counter_rpi_cancel_alarm, channel_set_callback_of_lt _ _ hlt]

/-- C4, as stated, fails: on idle channel 0 a first `set_alarm` whose configuration
carries the empty callback succeeds, and a second `set_alarm` right after it
succeeds as well instead of returning `-EBUSY`. -/
theorem set_alarm_twice_null_callback_not_busy :
    ∃ r1 r2,
      counter_rpi_set_alarm (idle_dev 0) 0
        { callback := 0, ticks := 5, user_data := 9, flags := 0 } = some r1 ∧ r1.ret = 0 ∧
      counter_rpi_set_alarm r1.dev 0
        { callback := 3, ticks := 5, user_data := 9, flags := 0 } = some r2 ∧ r2.ret = 0 ∧
      r2.ret ≠ -EBUSY := by
  obtain ⟨r1, h1, hr1, hc1, hcb1⟩ : ∃ r1, counter_rpi_set_alarm (idle_dev 0) 0
      { callback := 0, ticks := 5, user_data := 9, flags := 0 } = some r1 ∧ r1.ret = 0 ∧
      r1.dev.config = (idle_dev 0).config ∧ channel_callback r1.dev 0 = some 0 :=
    ⟨_, set_alarm_idle (idle_dev 0) _ (by decide) (by decide) (by decide), rfl, rfl, by decide⟩
  have h2 := set_alarm_idle r1.dev { callback := 3, ticks := 5, user_data := 9, flags := 0 }
    (by rw [hc1]; decide) (by decide) hcb1
  exact ⟨r1, _, h1, hr1, h2, rfl, by simp [EBUSY]⟩

/-- C4, amended: on a valid channel, after a `set_alarm` whose configuration
carries a non-empty callback, a second `set_alarm` on the same channel with no
`cancel_alarm` or fire in between returns `-EBUSY`, whatever the state before the
first call was. -/
theorem set_alarm_twice_busy (dev : device) (chan : Nat) (cfg1 cfg2 : counter_alarm_cfg)
    (hcfg : dev.config.info.channels ≤ TIMER_MAX_CHANNEL)
    (hchan : chan < dev.config.info.channels)
    (hcb : cfg1.callback ≠ 0) :
    ∃ r1 r2, counter_rpi_set_alarm dev chan cfg1 = some r1 ∧
      counter_rpi_set_alarm r1.dev chan cfg2 = some r2 ∧ r2.ret = -EBUSY := by
  have hlt : chan < TIMER_MAX_CHANNEL := Nat.lt_of_lt_of_le hchan hcfg
  by_cases hidle : (dev.data.channels ⟨chan, hlt⟩).callback = 0
  · have h0 : channel_callback dev chan = some 0 := by
      rw [channel_callback_of_lt dev hlt, hidle]
    obtain ⟨r1, h1, hc1, hcb1⟩ : ∃ r1, counter_rpi_set_alarm dev chan cfg1 = some r1 ∧
        r1.dev.config = dev.config ∧ channel_callback r1.dev chan = some cfg1.callback :=
      ⟨_, set_alarm_idle dev cfg1 hchan hlt h0, rfl, by simp [channel_callback_of_lt _ hlt]⟩
    exact ⟨r1, _, h1, set_alarm_busy r1.dev cfg2 (by rw [hc1]; exact hchan) hcb1 hcb, rfl⟩
  · have h1 := set_alarm_busy dev cfg1 hchan (channel_callback_of_lt dev hlt) hidle
    exact ⟨_, _, h1, set_alarm_busy dev cfg2 hchan (channel_callback_of_lt dev hlt) hidle, rfl⟩

/-- C4 amended, at channel 0 of an idle device with callback 7 in the first
configuration. -/
theorem set_alarm_twice_busy_witness :
    ((idle_dev 0).config.info.channels ≤ TIMER_MAX_CHANNEL ∧
      0 < (idle_dev 0).config.info.channels ∧ (7 : Nat) ≠ 0) ∧
    ∃ r1 r2,
      counter_rpi_set_alarm (idle_dev 0) 0
        { callback := 7, ticks := 5, user_data := 9, flags := 0 } = some r1 ∧
      counter_rpi_set_alarm r1.dev 0
        { callback := 3, ticks := 5, user_data := 9, flags := 0 } = some r2 ∧
      r2.ret = -EBUSY :=
  ⟨⟨by decide, by decide, by decide⟩,
    set_alarm_twice_busy (idle_dev 0) 0
      { callback := 7, ticks := 5, user_data := 9, flags := 0 }
      { callback := 3, ticks := 5, user_data := 9, flags := 0 }
      (by decide) (by decide) (by decide)⟩

/-- C5: on a valid idle channel, `set_alarm` succeeds, the `cancel_alarm` that
follows returns success and leaves the channel's callback empty, and a further
`set_alarm` on the channel succeeds, for every pair of configurations. -/
theorem set_cancel_set (dev : device) (chan : Nat) (cfg1 cfg2 : counter_alarm_cfg)
    (hchan : chan < dev.config.info.channels)
    (hidle : channel_callback dev chan = some 0) :
    ∃ r1 r2 r3, counter_rpi_set_alarm dev chan cfg1 = some r1 ∧ r1.ret = 0 ∧
      counter_rpi_cancel_alarm r1.dev chan = some r2 ∧ r2.ret = 0 ∧
      channel_callback r2.dev chan = some 0 ∧
      counter_rpi_set_alarm r2.dev chan cfg2 = some r3 ∧ r3.ret = 0 := by
  have hlt := lt_of_channel_callback hidle
  obtain ⟨r1, h1, hr1, hc1⟩ : ∃ r1, counter_rpi_set_alarm dev chan cfg1 = some r1 ∧ r1.ret = 0 ∧
      r1.dev.config = dev.config :=
    ⟨_, set_alarm_idle dev cfg1 hchan hlt hidle, rfl, rfl⟩
  obtain ⟨r2, h2, hr2, hc2, hcb2⟩ : ∃ r2, counter_rpi_cancel_alarm r1.dev chan = some r2 ∧
      r2.ret = 0 ∧ r2.dev.config = r1.dev.config ∧ channel_callback r2.dev chan = some 0 :=
    ⟨_, cancel_alarm_of_lt r1.dev hlt, rfl, rfl, by simp [channel_callback_of_lt _ hlt]⟩
  have h3 := set_alarm_idle r2.dev cfg2 (by rw [hc2, hc1]; exact hchan) hlt hcb2
  exact ⟨r1, r2, _, h1, hr1, h2, hr2, hcb2, h3, rfl⟩

/-- C5 at channel 2 of an idle device. -/
theorem set_cancel_set_witness :
    (2 < (idle_dev 100).config.info.channels ∧ channel_callback (idle_dev 100) 2 = some 0) ∧
    ∃ r1 r2 r3,
      counter_rpi_set_alarm (idle_dev 100) 2
        { callback := 7, ticks := 5, user_data := 9, flags := 0 } = some r1 ∧ r1.ret = 0 ∧
      counter_rpi_cancel_alarm r1.dev 2 = some r2 ∧ r2.ret = 0 ∧
      channel_callback r2.dev 2 = some 0 ∧
      counter_rpi_set_alarm r2.dev 2
        { callback := 3, ticks := 8, user_data := 1, flags := 1 } = some r3 ∧ r3.ret = 0 :=
  ⟨⟨by decide, by decide⟩,
    set_cancel_set (idle_dev 100) 2
      { callback := 7, ticks := 5, user_data := 9, flags := 0 }
      { callback := 3, ticks := 8, user_data := 1, flags := 1 } (by decide) (by decide)⟩

/-! ## Integer and bit facts -/

/-- Clearing a bit with `WRITE_BIT` leaves that bit clear. -/
theorem WRITE_BIT_clear_testBit (var : Nat) {bit : Nat} (h : bit < 32) :
    (WRITE_BIT var bit false).testBit bit = false := by
  have hones : (0xFFFFFFFF : Nat).testBit bit = true := by
    have hmask : (0xFFFFFFFF : Nat) = 2 ^ 32 - 1 := by norm_num
    rw [hmask, Nat.testBit_two_pow_sub_one]
    exact decide_eq_true h
  have hbit : (2 ^ bit).testBit bit = true := Nat.testBit_two_pow_self
  unfold WRITE_BIT not32 BIT
  simp only [Bool.false_eq_true, if_false, Nat.testBit_and, Nat.testBit_xor, hones, hbit]
  simp

/-- Setting a bit with `WRITE_BIT` leaves that bit set. -/
theorem WRITE_BIT_set_testBit (var bit : Nat) :
    (WRITE_BIT var bit true).testBit bit = true := by
  simp [WRITE_BIT, BIT, Nat.testBit_two_pow_self]

/-- Setting a bit twice is the same as setting it once. -/
theorem WRITE_BIT_set_idem (var bit : Nat) :
    WRITE_BIT (WRITE_BIT var bit true) bit true = WRITE_BIT var bit true := by
  simp [WRITE_BIT, Nat.lor_assoc]

/-- A 32-bit value survives the conversion to `int` and back to `uint32_t`. -/
theorem to_uint32_to_int (x : Nat) (h : x < 2 ^ 32) : to_uint32 (to_int x) = x := by
  unfold to_uint32 to_int
  have hx : x % 2 ^ 32 = x := Nat.mod_eq_of_lt h
  rw [hx]
  split <;> omega

/-- A channel index below 256 survives the conversion to `uint8_t`. -/
theorem to_uint8_of_lt (chan : Nat) (h : chan < 2 ^ 8) : to_uint8 (chan : Int) = chan := by
  unfold to_uint8
  omega

/-- What the dispatcher does on a channel inside the array. -/
theorem irq_handler_of_lt (dev : device) {chan : Nat} (hlt : chan < TIMER_MAX_CHANNEL) :
    counter_rpi_irq_handler dev chan = some
      { ret := ()
        dev := { dev with
          data := { channels := Function.update dev.data.channels ⟨chan, hlt⟩
                      { callback := 0, user_data := 0 } }
          timer_hw := { dev.timer_hw with inte := WRITE_BIT dev.timer_hw.inte chan false } }
        calls :=
          if (dev.data.channels ⟨chan, hlt⟩).callback ≠ 0 then
            [{ callback := (dev.data.channels ⟨chan, hlt⟩).callback
               dev := { dev with
                 data := { channels := Function.update dev.data.channels ⟨chan, hlt⟩
                             { callback := 0, user_data := 0 } }
                 timer_hw := { dev.timer_hw with
                   inte := WRITE_BIT dev.timer_hw.inte chan false } }
               chan := to_uint8 chan
               ticks := to_uint32 (to_int dev.timer_hw.timerawl)
               user_data := (dev.data.channels ⟨chan, hlt⟩).user_data }]
          else [] } := by
  by_cases hcb : (dev.data.channels ⟨chan, hlt⟩).callback = 0 <;>
  simp [counter_rpi_irq_handler, channel_get_of_lt _ hlt, channel_set_callback_of_lt _ _ hlt,
    channel_set_user_data_of_lt _ _ hlt, hcb]

/-- One round of the init loop on an index inside the array. -/
theorem clear_channel_of_lt (d : counter_rpi_data) {i : Nat} (h : i < TIMER_MAX_CHANNEL) :
    ((channel_set_callback d i 0).bind fun d => channel_set_user_data d i 0) =
      some { channels := Function.update d.channels ⟨i, h⟩ { callback := 0, user_data := 0 } } := by
  simp [channel_set_callback_of_lt _ _ h, channel_set_user_data_of_lt _ _ h]

/-- What the init loop does: every channel ends with empty callback and user data. -/
theorem timer_init_eq (dev : device) :
    counter_rpi_timer_init dev = some
      { ret := 0
        dev := { dev with data := { channels := fun _ => { callback := 0, user_data := 0 } } }
        calls := [] } := by
  have h0 : (0 : Nat) < TIMER_MAX_CHANNEL := by decide
  have h1 : (1 : Nat) < TIMER_MAX_CHANNEL := by decide
  have h2 : (2 : Nat) < TIMER_MAX_CHANNEL := by decide
  have h3 : (3 : Nat) < TIMER_MAX_CHANNEL := by decide
  have hr : List.range TIMER_MAX_CHANNEL = [0, 1, 2, 3] := by decide
  have hall : ∀ f : Fin TIMER_MAX_CHANNEL → counter_rpi_channel_data,
      Function.update (Function.update (Function.update (Function.update f
        ⟨0, h0⟩ { callback := 0, user_data := 0 }) ⟨1, h1⟩ { callback := 0, user_data := 0 })
        ⟨2, h2⟩ { callback := 0, user_data := 0 }) ⟨3, h3⟩ { callback := 0, user_data := 0 }
      = fun _ => { callback := 0, user_data := 0 } := by
    intro f
    funext i
    have hi : i = ⟨0, h0⟩ ∨ i = ⟨1, h1⟩ ∨ i = ⟨2, h2⟩ ∨ i = ⟨3, h3⟩ := by
      obtain ⟨v, hv⟩ := i
      have : v < 4 := hv
      simp only [Fin.mk.injEq]
      omega
    rcases hi with rfl | rfl | rfl | rfl <;> simp [Function.update, Fin.ext_iff]
  simp only [counter_rpi_timer_init, hr, List.foldl_cons, List.foldl_nil, Option.some_bind,
    clear_channel_of_lt _ h0, clear_channel_of_lt _ h1, clear_channel_of_lt _ h2,
    clear_channel_of_lt _ h3, hall]

/-- C6: on a channel that holds a callback, with any 32-bit counter reading `T`,
one run of the dispatcher calls the recorded callback exactly once, with the
channel index, `T` and the recorded user data, and the device at the moment of
the call and afterwards has the channel idle: callback and user data empty and
the interrupt-enable bit clear. -/
theorem irq_handler_fires_once (dev : device) (chan cb ud : Nat)
    (hcb : channel_callback dev chan = some cb) (hne : cb ≠ 0)
    (hud : channel_user_data dev chan = some ud)
    (hT : dev.timer_hw.timerawl < 2 ^ 32) :
    ∃ r, counter_rpi_irq_handler dev chan = some r ∧
      r.calls = [{ callback := cb, dev := r.dev, chan := chan,
                   ticks := dev.timer_hw.timerawl, user_data := ud }] ∧
      channel_callback r.dev chan = some 0 ∧
      channel_user_data r.dev chan = some 0 ∧
      inte_bit r.dev chan = false := by
  have hlt := lt_of_channel_callback hcb
  have hlt4 : chan < 4 := hlt
  rw [channel_callback_of_lt dev hlt] at hcb
  rw [channel_user_data_of_lt dev hlt] at hud
  have hcb' : (dev.data.channels ⟨chan, hlt⟩).callback = cb := by simpa using hcb
  have hud' : (dev.data.channels ⟨chan, hlt⟩).user_data = ud := by simpa using hud
  refine ⟨_, irq_handler_of_lt dev hlt, ?_, ?_, ?_, ?_⟩
  · simp [hcb', hud', hne, to_uint32_to_int _ hT, to_uint8_of_lt chan (by omega)]
  · simp [channel_callback_of_lt _ hlt]
  · simp [channel_user_data_of_lt _ hlt]
  · simp [inte_bit, WRITE_BIT_clear_testBit _ (show chan < 32 by omega)]

/-- C6 at channel 1 holding callback 5 with user data 6, counter reading
`0x90000000` (above `2^31`). -/
theorem irq_handler_fires_once_witness :
    (channel_callback (armed_dev 5 6 0x90000000) 1 = some 5 ∧ (5 : Nat) ≠ 0 ∧
      channel_user_data (armed_dev 5 6 0x90000000) 1 = some 6 ∧
      (armed_dev 5 6 0x90000000).timer_hw.timerawl < 2 ^ 32 ∧
      2 ^ 31 ≤ (armed_dev 5 6 0x90000000).timer_hw.timerawl) ∧
    ∃ r, counter_rpi_irq_handler (armed_dev 5 6 0x90000000) 1 = some r ∧
      r.calls = [{ callback := 5, dev := r.dev, chan := 1,
                   ticks := (armed_dev 5 6 0x90000000).timer_hw.timerawl, user_data := 6 }] ∧
      channel_callback r.dev 1 = some 0 ∧
      channel_user_data r.dev 1 = some 0 ∧
      inte_bit r.dev 1 = false :=
  ⟨⟨by decide, by decide, by decide, by decide, by decide⟩,
    irq_handler_fires_once (armed_dev 5 6 0x90000000) 1 5 6
      (by decide) (by decide) (by decide) (by decide)⟩

/-- C7: on a valid channel, from any prior state, the dispatcher runs, and a
`set_alarm` on the same channel issued from the state in which the callback is
called (callback and user data already taken and cleared) returns success, not
`-EBUSY`. -/
theorem set_alarm_from_callback (dev : device) (chan : Nat) (cfg : counter_alarm_cfg)
    (hcfg : dev.config.info.channels ≤ TIMER_MAX_CHANNEL)
    (hchan : chan < dev.config.info.channels) :
    ∃ r, counter_rpi_irq_handler dev chan = some r ∧
      (∀ call ∈ r.calls, ∃ r', counter_rpi_set_alarm call.dev chan cfg = some r' ∧ r'.ret = 0) ∧
      ∃ r', counter_rpi_set_alarm r.dev chan cfg = some r' ∧ r'.ret = 0 := by
  have hlt : chan < TIMER_MAX_CHANNEL := Nat.lt_of_lt_of_le hchan hcfg
  obtain ⟨r, hr, hc, hidle, hcalls⟩ : ∃ r, counter_rpi_irq_handler dev chan = some r ∧
      r.dev.config = dev.config ∧ channel_callback r.dev chan = some 0 ∧
      ∀ call ∈ r.calls, call.dev = r.dev := by
    refine ⟨_, irq_handler_of_lt dev hlt, rfl, by simp [channel_callback_of_lt _ hlt], ?_⟩
    intro call hmem
    by_cases hcb : (dev.data.channels ⟨chan, hlt⟩).callback = 0
    · simp [hcb] at hmem
    · simp [hcb] at hmem
      rw [hmem]
  have hset : ∃ r', counter_rpi_set_alarm r.dev chan cfg = some r' ∧ r'.ret = 0 :=
    ⟨_, set_alarm_idle r.dev cfg (by rw [hc]; exact hchan) hlt hidle, rfl⟩
  refine ⟨r, hr, ?_, hset⟩
  intro call hmem
  rw [hcalls call hmem]
  exact hset

/-- C7 at channel 1 of a device whose channel 1 holds a callback. -/
theorem set_alarm_from_callback_witness :
    ((armed_dev 5 6 77).config.info.channels ≤ TIMER_MAX_CHANNEL ∧
      1 < (armed_dev 5 6 77).config.info.channels) ∧
    ∃ r, counter_rpi_irq_handler (armed_dev 5 6 77) 1 = some r ∧
      (∀ call ∈ r.calls, ∃ r', counter_rpi_set_alarm call.dev 1
          { callback := 5, ticks := 10, user_data := 6, flags := 0 } = some r' ∧ r'.ret = 0) ∧
      ∃ r', counter_rpi_set_alarm r.dev 1
          { callback := 5, ticks := 10, user_data := 6, flags := 0 } = some r' ∧ r'.ret = 0 :=
  ⟨⟨by decide, by decide⟩,
    set_alarm_from_callback (armed_dev 5 6 77) 1
      { callback := 5, ticks := 10, user_data := 6, flags := 0 } (by decide) (by decide)⟩

/-- C9: a run of the dispatcher on a channel whose callback is empty calls
nothing (`dev`); in particular, from any state `dev'` and on any valid channel,
the dispatcher calls nothing right after device init, right after a fire, and
right after `cancel_alarm` (a late interrupt after a cancel). -/
theorem irq_handler_idle_calls_nothing (dev dev' : device) (chan : Nat)
    (hidle : channel_callback dev chan = some 0)
    (hcfg : dev'.config.info.channels ≤ TIMER_MAX_CHANNEL)
    (hchan : chan < dev'.config.info.channels) :
    (∃ r, counter_rpi_irq_handler dev chan = some r ∧ r.calls = []) ∧
    (∃ r0 r, counter_rpi_timer_init dev' = some r0 ∧
      counter_rpi_irq_handler r0.dev chan = some r ∧ r.calls = []) ∧
    (∃ r1 r, counter_rpi_irq_handler dev' chan = some r1 ∧
      counter_rpi_irq_handler r1.dev chan = some r ∧ r.calls = []) ∧
    (∃ r2 r, counter_rpi_cancel_alarm dev' chan = some r2 ∧ r2.calls = [] ∧
      counter_rpi_irq_handler r2.dev chan = some r ∧ r.calls = []) := by
  have hlt : chan < TIMER_MAX_CHANNEL := Nat.lt_of_lt_of_le hchan hcfg
  have key : ∀ d : device, channel_callback d chan = some 0 →
      ∃ r, counter_rpi_irq_handler d chan = some r ∧ r.calls = [] := by
    intro d hd
    rw [channel_callback_of_lt d hlt] at hd
    have hd' : (d.data.channels ⟨chan, hlt⟩).callback = 0 := by simpa using hd
    exact ⟨_, irq_handler_of_lt d hlt, by simp [hd']⟩
  refine ⟨key dev hidle, ?_, ?_, ?_⟩
  · obtain ⟨r0, h0, hz⟩ : ∃ r0, counter_rpi_timer_init dev' = some r0 ∧
        channel_callback r0.dev chan = some 0 :=
      ⟨_, timer_init_eq dev', by simp [channel_callback_of_lt _ hlt]⟩
    obtain ⟨r, hr, hcalls⟩ := key r0.dev hz
    exact ⟨r0, r, h0, hr, hcalls⟩
  · obtain ⟨r1, h1, hz⟩ : ∃ r1, counter_rpi_irq_handler dev' chan = some r1 ∧
        channel_callback r1.dev chan = some 0 :=
      ⟨_, irq_handler_of_lt dev' hlt, by simp [channel_callback_of_lt _ hlt]⟩
    obtain ⟨r, hr, hcalls⟩ := key r1.dev hz
    exact ⟨r1, r, h1, hr, hcalls⟩
  · obtain ⟨r2, h2, hnone, hz⟩ : ∃ r2, counter_rpi_cancel_alarm dev' chan = some r2 ∧
        r2.calls = [] ∧ channel_callback r2.dev chan = some 0 :=
      ⟨_, cancel_alarm_of_lt dev' hlt, rfl, by simp [channel_callback_of_lt _ hlt]⟩
    obtain ⟨r, hr, hcalls⟩ := key r2.dev hz
    exact ⟨r2, r, h2, hnone, hr, hcalls⟩

/-- C9 at channel 1, idle in `idle_dev 77` and holding callback 5 in
`armed_dev 5 6 77` before the init, fire or cancel. -/
theorem irq_handler_idle_calls_nothing_witness :
    (channel_callback (idle_dev 77) 1 = some 0 ∧
      (armed_dev 5 6 77).config.info.channels ≤ TIMER_MAX_CHANNEL ∧
      1 < (armed_dev 5 6 77).config.info.channels) ∧
    ((∃ r, counter_rpi_irq_handler (idle_dev 77) 1 = some r ∧ r.calls = []) ∧
    (∃ r0 r, counter_rpi_timer_init (armed_dev 5 6 77) = some r0 ∧
      counter_rpi_irq_handler r0.dev 1 = some r ∧ r.calls = []) ∧
    (∃ r1 r, counter_rpi_irq_handler (armed_dev 5 6 77) 1 = some r1 ∧
      counter_rpi_irq_handler r1.dev 1 = some r ∧ r.calls = []) ∧
    (∃ r2 r, counter_rpi_cancel_alarm (armed_dev 5 6 77) 1 = some r2 ∧ r2.calls = [] ∧
      counter_rpi_irq_handler r2.dev 1 = some r ∧ r.calls = [])) :=
  ⟨⟨by decide, by decide, by decide⟩,
    irq_handler_idle_calls_nothing (idle_dev 77) (armed_dev 5 6 77) 1
      (by decide) (by decide) (by decide)⟩

/-- C10: on a channel that is already idle (`dev`), `cancel_alarm` returns
success, calls no callback and leaves the channel registry unchanged; and from
any state `dev'`, on any valid channel, `cancel_alarm` succeeds, and applying it
a second time succeeds and gives the same device state as applying it once. -/
theorem cancel_alarm_idempotent (dev dev' : device) (chan : Nat)
    (hidle : channel_callback dev chan = some 0)
    (hcfg : dev'.config.info.channels ≤ TIMER_MAX_CHANNEL)
    (hchan : chan < dev'.config.info.channels) :
    (∃ r, counter_rpi_cancel_alarm dev chan = some r ∧ r.ret = 0 ∧ r.calls = [] ∧
      r.dev.data = dev.data) ∧
    (∃ r1 r2, counter_rpi_cancel_alarm dev' chan = some r1 ∧ r1.ret = 0 ∧ r1.calls = [] ∧
      counter_rpi_cancel_alarm r1.dev chan = some r2 ∧ r2.ret = 0 ∧ r2.calls = [] ∧
      r2.dev = r1.dev) := by
  have hlt : chan < TIMER_MAX_CHANNEL := Nat.lt_of_lt_of_le hchan hcfg
  constructor
  · refine ⟨_, cancel_alarm_of_lt dev hlt, rfl, rfl, ?_⟩
    rw [channel_callback_of_lt dev hlt] at hidle
    have hidle' : (dev.data.channels ⟨chan, hlt⟩).callback = 0 := by simpa using hidle
    have hch : ({ dev.data.channels ⟨chan, hlt⟩ with callback := 0 } : counter_rpi_channel_data)
        = dev.data.channels ⟨chan, hlt⟩ := by
      cases hc : dev.data.channels ⟨chan, hlt⟩ with
      | mk cb ud =>
        rw [hc] at hidle'
        simp only at hidle'
        simp [hidle']
    show ({ channels := Function.update dev.data.channels ⟨chan, hlt⟩
              { dev.data.channels ⟨chan, hlt⟩ with callback := 0 } } : counter_rpi_data) = dev.data
    rw [hch, Function.update_eq_self]
  · refine ⟨_, _, cancel_alarm_of_lt dev' hlt, rfl, rfl, cancel_alarm_of_lt _ hlt, rfl, rfl, ?_⟩
    simp [WRITE_BIT_set_idem]

/-- C10 at channel 1, idle in `idle_dev 0` and holding callback 5 in
`armed_dev 5 6 0`. -/
theorem cancel_alarm_idempotent_witness :
    (channel_callback (idle_dev 0) 1 = some 0 ∧
      (armed_dev 5 6 0).config.info.channels ≤ TIMER_MAX_CHANNEL ∧
      1 < (armed_dev 5 6 0).config.info.channels) ∧
    ((∃ r, counter_rpi_cancel_alarm (idle_dev 0) 1 = some r ∧ r.ret = 0 ∧ r.calls = [] ∧
      r.dev.data = (idle_dev 0).data) ∧
    (∃ r1 r2, counter_rpi_cancel_alarm (armed_dev 5 6 0) 1 = some r1 ∧ r1.ret = 0 ∧
      r1.calls = [] ∧
      counter_rpi_cancel_alarm r1.dev 1 = some r2 ∧ r2.ret = 0 ∧ r2.calls = [] ∧
      r2.dev = r1.dev)) :=
  ⟨⟨by decide, by decide, by decide⟩,
    cancel_alarm_idempotent (idle_dev 0) (armed_dev 5 6 0) 1 (by decide) (by decide) (by decide)⟩

/-! ## Runs of the device -/

theorem invocations_append (c : Nat) (l₁ l₂ : List event) :
    invocations c (l₁ ++ l₂) = invocations c l₁ + invocations c l₂ := by
  induction l₁ with
  | nil => simp [invocations]
  | cons e l ih =>
    cases e with
    | returned op ret => simpa [invocations] using ih
    | invoked call => simp [invocations, ih, Nat.add_assoc]

theorem successful_set_alarms_append (c : Nat) (l₁ l₂ : List event) :
    successful_set_alarms c (l₁ ++ l₂) =
      successful_set_alarms c l₁ + successful_set_alarms c l₂ := by
  induction l₁ with
  | nil => simp [successful_set_alarms]
  | cons e l ih =>
    cases e with
    | invoked call => simpa [successful_set_alarms] using ih
    | returned op ret =>
      cases op <;> simp [successful_set_alarms, ih, Nat.add_assoc]

/-- The pending count after a store to one channel of the registry. -/
theorem pending_update (dev dev' : device) {chan : Nat} (hlt : chan < TIMER_MAX_CHANNEL)
    (v : counter_rpi_channel_data)
    (h : dev'.data.channels = Function.update dev.data.channels ⟨chan, hlt⟩ v) (c : Nat) :
    pending dev' c = if c = chan then (if v.callback ≠ 0 then 1 else 0) else pending dev c := by
  by_cases hc : c < TIMER_MAX_CHANNEL
  · by_cases hcc : c = chan
    · subst hcc
      simp [pending, channel_get, hc, h]
    · have hne : (⟨c, hc⟩ : Fin TIMER_MAX_CHANNEL) ≠ ⟨chan, hlt⟩ := by
        simpa [Fin.ext_iff] using hcc
      simp [pending, channel_get, hc, h, hcc, Function.update_noteq hne]
  · have hcc : c ≠ chan := fun e => hc (e ▸ hlt)
    simp [pending, channel_get, hc, hcc]

/-- One operation on channels inside the array runs, records at most one event,
and keeps the balance: calls made plus callbacks held afterwards do not exceed
successful `set_alarm` calls plus callbacks held before. -/
theorem step_balance (dev : device) (op : Op) (hop : op.in_array) :
    ∃ d evs, step dev op = some (d, evs) ∧ evs.length ≤ 1 ∧
      ∀ c, invocations c evs + pending d c ≤ successful_set_alarms c evs + pending dev c := by
  cases op with
  | start =>
    refine ⟨_, _, rfl, by simp, fun c => ?_⟩
    simp [invocations, successful_set_alarms, pending]
  | stop =>
    refine ⟨_, _, rfl, by simp, fun c => ?_⟩
    simp [invocations, successful_set_alarms, pending]
  | count t =>
    refine ⟨_, _, rfl, by simp, fun c => ?_⟩
    simp [invocations, successful_set_alarms, pending]
  | set_alarm chan cfg =>
    have hlt : chan < TIMER_MAX_CHANNEL := hop chan rfl
    by_cases hchan : chan < dev.config.info.channels
    · by_cases hidle : (dev.data.channels ⟨chan, hlt⟩).callback = 0
      · have h0 : channel_callback dev chan = some 0 := by
          rw [channel_callback_of_lt dev hlt, hidle]
        refine ⟨_, _, by simp only [step, set_alarm_idle dev cfg hchan hlt h0, Option.map_some']; rfl,
          by simp, fun c => ?_⟩
        rw [pending_update dev _ hlt _ rfl c]
        by_cases hc : c = chan
        · subst hc
          simp only [invocations, successful_set_alarms, and_self, if_true]
          split <;> omega
        · have hc' : ¬ chan = c := fun e => hc e.symm
          simp [invocations, successful_set_alarms, hc, hc']
      · have h1 := set_alarm_busy dev cfg hchan (channel_callback_of_lt dev hlt) hidle
        refine ⟨_, _, by simp only [step, h1, Option.map_some']; rfl, by simp, fun c => ?_⟩
        simp [invocations, successful_set_alarms, EBUSY]
    · have h1 : counter_rpi_set_alarm dev chan cfg =
          some { ret := -EINVAL, dev := dev, calls := [] } := by
        simp [counter_rpi_set_alarm, Nat.le_of_not_lt hchan]
      refine ⟨_, _, by simp only [step, h1, Option.map_some']; rfl, by simp, fun c => ?_⟩
      simp [invocations, successful_set_alarms, EINVAL]
  | cancel_alarm chan =>
    have hlt : chan < TIMER_MAX_CHANNEL := hop chan rfl
    refine ⟨_, _, by simp only [step, cancel_alarm_of_lt dev hlt, Option.map_some']; rfl,
      by simp, fun c => ?_⟩
    rw [pending_update dev _ hlt _ rfl c]
    simp only [invocations, successful_set_alarms]
    split <;> simp
  | irq chan =>
    have hlt : chan < TIMER_MAX_CHANNEL := hop chan rfl
    have hlt4 : chan < 4 := hlt
    refine ⟨_, _, by simp only [step, irq_handler_of_lt dev hlt, Option.map_some']; rfl, ?_,
      fun c => ?_⟩
    · by_cases hcb : (dev.data.channels ⟨chan, hlt⟩).callback = 0 <;> simp [hcb]
    · rw [pending_update dev _ hlt _ rfl c]
      by_cases hcb : (dev.data.channels ⟨chan, hlt⟩).callback = 0
      · simp only [hcb, ne_eq, not_true_eq_false, if_false, List.map_nil, invocations,
          successful_set_alarms]
        split <;> simp
      · have hp : pending dev chan = 1 := by
          simp [pending, channel_get, hlt, hcb]
        simp only [hcb, ne_eq, not_false_eq_true, if_true, List.map_cons, List.map_nil,
          invocations, successful_set_alarms, to_uint8_of_lt chan (by omega)]
        by_cases hc : c = chan
        · subst hc
          simp [hp]
        · have hc' : ¬ chan = c := fun e => hc e.symm
          simp [hc, hc']

/-- A run over operations on channels inside the array completes and keeps the
balance of `step_balance` from its first state to its last. -/
theorem exec_balance (ops : List Op) :
    ∀ dev : device, (∀ op ∈ ops, op.in_array) →
      ∃ d log, exec dev ops = some (d, log) ∧
        ∀ c, invocations c log + pending d c ≤ successful_set_alarms c log + pending dev c := by
  induction ops with
  | nil =>
    intro dev _
    exact ⟨dev, [], rfl, fun c => by simp [invocations, successful_set_alarms]⟩
  | cons op ops ih =>
    intro dev hops
    obtain ⟨d1, evs, hstep, _, hbal1⟩ := step_balance dev op (hops op (List.mem_cons_self _ _))
    obtain ⟨d, log, hexec, hbal⟩ := ih d1 (fun o ho => hops o (List.mem_cons_of_mem _ ho))
    refine ⟨d, evs ++ log, by simp [exec, hstep, hexec], fun c => ?_⟩
    rw [invocations_append, successful_set_alarms_append]
    have h1 := hbal1 c
    have h2 := hbal c
    omega

/-- Every prefix of the record of a run is the record of the run of a prefix of
the operations. -/
theorem exec_take (ops : List Op) :
    ∀ (dev d : device) (log : List event), (∀ op ∈ ops, op.in_array) →
      exec dev ops = some (d, log) →
      ∀ n, ∃ k d', exec dev (ops.take k) = some (d', log.take n) := by
  induction ops with
  | nil =>
    intro dev d log _ hexec n
    simp only [exec, Option.some.injEq, Prod.mk.injEq] at hexec
    exact ⟨0, dev, by simp [exec, ← hexec.2]⟩
  | cons op ops ih =>
    intro dev d log hops hexec n
    obtain ⟨d1, evs, hstep, hlen, _⟩ := step_balance dev op (hops op (List.mem_cons_self _ _))
    obtain ⟨d2, log2, hexec2, _⟩ :=
      exec_balance ops d1 (fun o ho => hops o (List.mem_cons_of_mem _ ho))
    have hlog : log = evs ++ log2 := by
      simp [exec, hstep, hexec2] at hexec
      exact hexec.2.symm
    cases n with
    | zero => exact ⟨0, dev, by simp [exec]⟩
    | succ m =>
      match evs, hlen, hstep with
      | [], _, hstep =>
        obtain ⟨k, d', hk⟩ :=
          ih d1 d2 log2 (fun o ho => hops o (List.mem_cons_of_mem _ ho)) hexec2 (m + 1)
        exact ⟨k + 1, d', by simp [exec, hstep, hk, hlog]⟩
      | [e], _, hstep =>
        obtain ⟨k, d', hk⟩ :=
          ih d1 d2 log2 (fun o ho => hops o (List.mem_cons_of_mem _ ho)) hexec2 m
        exact ⟨k + 1, d', by simp [exec, hstep, hk, hlog]⟩
      | _ :: _ :: _, hlen, _ => simp at hlen

/-- C8: from the device-init state, every finite sequence of operations on valid
channels runs to completion, and at every point of the record of the run, for
every channel, the number of callback calls on the channel is at most the number
of successful `set_alarm` calls on the channel made up to that point. -/
theorem callbacks_at_most_once_per_set_alarm (dev : device) (ops : List Op)
    (hcfg : dev.config.info.channels ≤ TIMER_MAX_CHANNEL)
    (hvalid : ∀ op ∈ ops, ∀ c, op.chan? = some c → c < dev.config.info.channels) :
    ∃ r0 d log, counter_rpi_timer_init dev = some r0 ∧ exec r0.dev ops = some (d, log) ∧
      ∀ n c, invocations c (log.take n) ≤ successful_set_alarms c (log.take n) := by
  have hin : ∀ op ∈ ops, op.in_array :=
    fun op hop c hc => Nat.lt_of_lt_of_le (hvalid op hop c hc) hcfg
  obtain ⟨r0, h0, hp0⟩ : ∃ r0, counter_rpi_timer_init dev = some r0 ∧
      ∀ c, pending r0.dev c = 0 := by
    refine ⟨_, timer_init_eq dev, fun c => ?_⟩
    unfold pending channel_get
    split_ifs <;> simp
  obtain ⟨d, log, hexec, _⟩ := exec_balance ops r0.dev hin
  refine ⟨r0, d, log, h0, hexec, fun n c => ?_⟩
  obtain ⟨k, d', hk⟩ := exec_take ops r0.dev d log hin hexec n
  obtain ⟨d'', log', hk', hbal⟩ :=
    exec_balance (ops.take k) r0.dev (fun o ho => hin o (List.mem_of_mem_take ho))
  rw [hk] at hk'
  simp only [Option.some.injEq, Prod.mk.injEq] at hk'
  have h := hbal c
  rw [← hk'.2, hp0 c] at h
  omega

/-- C8 on a run that arms channel 1, lets the counter advance, fires channel 1
twice, then arms channel 0, cancels it and runs the dispatcher on it. -/
theorem callbacks_at_most_once_per_set_alarm_witness :
    ((armed_dev 5 6 0).config.info.channels ≤ TIMER_MAX_CHANNEL ∧
      ∀ op ∈ [Op.set_alarm 1 { callback := 7, ticks := 5, user_data := 9, flags := 0 },
              Op.count 5, Op.irq 1, Op.irq 1,
              Op.set_alarm 0 { callback := 7, ticks := 5, user_data := 9, flags := 1 },
              Op.cancel_alarm 0, Op.irq 0],
        ∀ c, op.chan? = some c → c < (armed_dev 5 6 0).config.info.channels) ∧
    ∃ r0 d log, counter_rpi_timer_init (armed_dev 5 6 0) = some r0 ∧
      exec r0.dev [Op.set_alarm 1 { callback := 7, ticks := 5, user_data := 9, flags := 0 },
              Op.count 5, Op.irq 1, Op.irq 1,
              Op.set_alarm 0 { callback := 7, ticks := 5, user_data := 9, flags := 1 },
              Op.cancel_alarm 0, Op.irq 0] = some (d, log) ∧
      ∀ n c, invocations c (log.take n) ≤ successful_set_alarms c (log.take n) :=
  have hv : ∀ op ∈ [Op.set_alarm 1 { callback := 7, ticks := 5, user_data := 9, flags := 0 },
              Op.count 5, Op.irq 1, Op.irq 1,
              Op.set_alarm 0 { callback := 7, ticks := 5, user_data := 9, flags := 1 },
              Op.cancel_alarm 0, Op.irq 0],
        ∀ c, op.chan? = some c → c < (armed_dev 5 6 0).config.info.channels := by
    intro op hop c hc
    simp only [List.mem_cons, List.mem_singleton, List.not_mem_nil, or_false] at hop
    rcases hop with rfl | rfl | rfl | rfl | rfl | rfl | rfl <;>
      simp [Op.chan?] at hc <;> subst hc <;> decide
  ⟨⟨by decide, hv⟩, callbacks_at_most_once_per_set_alarm (armed_dev 5 6 0) _ (by decide) hv⟩

/-! ## Cancel, top value and pending status -/

/-- On a channel inside the array `cancel_alarm` leaves the user data as it was. -/
theorem cancel_alarm_user_data (dev : device) {chan : Nat} (hlt : chan < TIMER_MAX_CHANNEL) :
    ∃ r, counter_rpi_cancel_alarm dev chan = some r ∧
      channel_callback r.dev chan = some 0 ∧
      channel_user_data r.dev chan = channel_user_data dev chan :=
  ⟨_, cancel_alarm_of_lt dev hlt, by simp [channel_callback_of_lt _ hlt],
    by simp [channel_user_data_of_lt _ hlt]⟩

/-- C11, the code at the failing input: `cancel_alarm` on channel 1 holding
callback 5 and user data 6 empties the callback and leaves the user data 6 in
place. -/
theorem cancel_alarm_keeps_user_data :
    ∃ r, counter_rpi_cancel_alarm (armed_dev 5 6 0) 1 = some r ∧ r.ret = 0 ∧
      channel_callback r.dev 1 = some 0 ∧ channel_user_data r.dev 1 = some 6 :=
  ⟨_, cancel_alarm_of_lt (armed_dev 5 6 0) (by decide), rfl, by decide, by decide⟩

/-- Read through a pointer to the `info` member, `max_top_value` is the value
stored in `info`. -/
theorem read_max_top_value_info (config : counter_rpi_config) :
    read_max_top_value config.info.words = some config.info.max_top_value := rfl

/-- What `get_top_value` returns: the first word of the configuration record,
which is the pointer `timer_dev`. -/
theorem get_top_value_eq (dev : device) :
    counter_rpi_get_top_value dev = some { ret := dev.config.timer_dev, dev := dev, calls := [] } :=
  rfl

/-- C12, the code at the failing input: on a device built with the driver's
configuration, whose `info.max_top_value` is `UINT32_MAX`, `get_top_value`
returns the address of the register block, not `0xFFFFFFFF`. -/
theorem get_top_value_returns_register_base :
    (idle_dev 0).config = rpi_counter_config ∧
    rpi_counter_config.info.max_top_value = 0xFFFFFFFF ∧
    ∃ r, counter_rpi_get_top_value (idle_dev 0) = some r ∧ r.ret = TIMER_BASE ∧
      r.ret ≠ 0xFFFFFFFF :=
  ⟨rfl, rfl, _, get_top_value_eq (idle_dev 0), rfl, by decide⟩

/-- What `get_pending_int` returns: `1` exactly when one of the status bits of
channels 0, 1 and 2 is set. -/
theorem get_pending_int_iff (dev : device) :
    ∃ r, counter_rpi_get_pending_int dev = some r ∧ r.dev = dev ∧ r.calls = [] ∧
      (r.ret = 1 ↔ ints_bit dev 0 = true ∨ ints_bit dev 1 = true ∨ ints_bit dev 2 = true) ∧
      (r.ret = 0 ∨ r.ret = 1) := by
  refine ⟨_, rfl, rfl, rfl, ?_, ?_⟩
  · have hmask : dev.timer_hw.ints &&& 0b111 = dev.timer_hw.ints % 2 ^ 3 :=
      Nat.and_pow_two_sub_one_eq_mod _ 3
    simp only [ints_bit, Nat.testBit_to_div_mod, decide_eq_true_eq, hmask]
    norm_num
    omega
  · simp only
    split <;> simp

/-- C13, the code at the failing input: with only the status bit of channel 3
set, a channel the device supports, `get_pending_int` returns `0`. -/
theorem get_pending_int_misses_channel_3 :
    3 < (status_dev 0b1000).config.info.channels ∧ ints_bit (status_dev 0b1000) 3 = true ∧
    ∃ r, counter_rpi_get_pending_int (status_dev 0b1000) = some r ∧ r.ret = 0 :=
  ⟨by decide, by decide, _, rfl, by decide⟩

/-- C14: on a valid idle channel `set_alarm` succeeds and leaves the channel
armed: callback and user data are those of the configuration and the channel's
interrupt-enable bit is set (for every configuration, a non-empty callback
included). -/
theorem set_alarm_arms (dev : device) (chan : Nat) (cfg : counter_alarm_cfg)
    (hchan : chan < dev.config.info.channels)
    (hidle : channel_callback dev chan = some 0) :
    ∃ r, counter_rpi_set_alarm dev chan cfg = some r ∧ r.ret = 0 ∧
      channel_callback r.dev chan = some cfg.callback ∧
      channel_user_data r.dev chan = some cfg.user_data ∧
      inte_bit r.dev chan = true := by
  have hlt := lt_of_channel_callback hidle
  refine ⟨_, set_alarm_idle dev cfg hchan hlt hidle, rfl, ?_, ?_, ?_⟩
  · simp [channel_callback_of_lt _ hlt]
  · simp [channel_user_data_of_lt _ hlt]
  · simp [inte_bit, WRITE_BIT_set_testBit]

/-- C14 at channel 2 of an idle device, with callback 7 and user data 9. -/
theorem set_alarm_arms_witness :
    (2 < (idle_dev 40).config.info.channels ∧ channel_callback (idle_dev 40) 2 = some 0 ∧
      (7 : Nat) ≠ 0) ∧
    ∃ r, counter_rpi_set_alarm (idle_dev 40) 2
          { callback := 7, ticks := 100, user_data := 9, flags := 0 } = some r ∧ r.ret = 0 ∧
      channel_callback r.dev 2 = some 7 ∧
      channel_user_data r.dev 2 = some 9 ∧
      inte_bit r.dev 2 = true :=
  ⟨⟨by decide, by decide, by decide⟩,
    set_alarm_arms (idle_dev 40) 2 { callback := 7, ticks := 100, user_data := 9, flags := 0 }
      (by decide) (by decide)⟩

/-- C15: `start` and `stop` return success and store only to the run/pause
control register: the channel registry, the alarm registers, the interrupt-enable
bits, the latched and status interrupt bits, the armed bits and the counter
reading are the same afterwards, and so is every channel's callback, user data,
alarm register, interrupt-enable bit and pending bit. -/
theorem start_stop_frame (dev : device) :
    (∃ r, counter_rpi_start dev = some r ∧ r.ret = 0 ∧ r.calls = [] ∧
      r.dev.timer_hw.pause = TIMER_PAUSE_RESET ∧
      r.dev.config = dev.config ∧ r.dev.data = dev.data ∧
      r.dev.timer_hw.alarm = dev.timer_hw.alarm ∧ r.dev.timer_hw.inte = dev.timer_hw.inte ∧
      r.dev.timer_hw.intr = dev.timer_hw.intr ∧ r.dev.timer_hw.ints = dev.timer_hw.ints ∧
      r.dev.timer_hw.armed = dev.timer_hw.armed ∧
      r.dev.timer_hw.timerawl = dev.timer_hw.timerawl ∧
      ∀ c, same_channel dev r.dev c ∧ intr_bit r.dev c = intr_bit dev c ∧
        ints_bit r.dev c = ints_bit dev c) ∧
    (∃ r, counter_rpi_stop dev = some r ∧ r.ret = 0 ∧ r.calls = [] ∧
      r.dev.timer_hw.pause = TIMER_PAUSE_BITS ∧
      r.dev.config = dev.config ∧ r.dev.data = dev.data ∧
      r.dev.timer_hw.alarm = dev.timer_hw.alarm ∧ r.dev.timer_hw.inte = dev.timer_hw.inte ∧
      r.dev.timer_hw.intr = dev.timer_hw.intr ∧ r.dev.timer_hw.ints = dev.timer_hw.ints ∧
      r.dev.timer_hw.armed = dev.timer_hw.armed ∧
      r.dev.timer_hw.timerawl = dev.timer_hw.timerawl ∧
      ∀ c, same_channel dev r.dev c ∧ intr_bit r.dev c = intr_bit dev c ∧
        ints_bit r.dev c = ints_bit dev c) := by
  constructor
  · exact ⟨_, rfl, rfl, rfl, rfl, rfl, rfl, rfl, rfl, rfl, rfl, rfl, rfl,
      fun c => ⟨⟨rfl, rfl, rfl, rfl⟩, rfl, rfl⟩⟩
  · exact ⟨_, rfl, rfl, rfl, rfl, rfl, rfl, rfl, rfl, rfl, rfl, rfl, rfl,
      fun c => ⟨⟨rfl, rfl, rfl, rfl⟩, rfl, rfl⟩⟩

/-- C16: for every state and every top-value configuration, `set_top_value`
returns `-ENOTSUP`, calls nothing and leaves the device unchanged. -/
theorem set_top_value_not_supported (dev : device) (cfg : counter_top_cfg) :
    counter_rpi_set_top_value dev cfg = some { ret := -ENOTSUP, dev := dev, calls := [] } ∧
    -ENOTSUP ≠ 0 := by
  exact ⟨rfl, by decide⟩

/-! ## Order of the stores -/

/-- Replaying the stores of `set_alarm` gives the device `set_alarm` returns. -/
theorem set_alarm_writes_replay (dev : device) (chan : Nat) (cfg : counter_alarm_cfg) :
    (counter_rpi_set_alarm dev chan cfg).map (fun r => r.dev) =
      (counter_rpi_set_alarm_writes dev chan cfg).bind (apply_writes dev) := by
  unfold counter_rpi_set_alarm counter_rpi_set_alarm_writes
  by_cases hchan : chan ≥ dev.config.info.channels
  · simp [hchan, apply_writes]
  · by_cases hlt : chan < TIMER_MAX_CHANNEL
    · by_cases hcb : (dev.data.channels ⟨chan, hlt⟩).callback = 0
      · simp [hchan, channel_get_of_lt _ hlt, hcb, apply_writes, write.apply,
          channel_set_callback_of_lt _ _ hlt, channel_set_user_data_of_lt _ _ hlt,
          alarm_set_of_lt _ _ hlt]
      · simp [hchan, channel_get_of_lt _ hlt, hcb, apply_writes]
    · simp [hchan, channel_get, hlt]

/-- Replaying the stores of `cancel_alarm` gives the device `cancel_alarm` returns. -/
theorem cancel_alarm_writes_replay (dev : device) (chan : Nat) :
    (counter_rpi_cancel_alarm dev chan).map (fun r => r.dev) =
      apply_writes dev (counter_rpi_cancel_alarm_writes dev chan) := by
  unfold counter_rpi_cancel_alarm counter_rpi_cancel_alarm_writes
  by_cases hlt : chan < TIMER_MAX_CHANNEL
  · simp [apply_writes, write.apply, channel_set_callback_of_lt _ _ hlt]
  · simp [apply_writes, write.apply, channel_set_callback, hlt]

/-- The stores of `set_alarm` on its success path. -/
theorem set_alarm_writes_idle (dev : device) {chan : Nat} (cfg : counter_alarm_cfg)
    (hchan : chan < dev.config.info.channels)
    (hidle : channel_callback dev chan = some 0) :
    counter_rpi_set_alarm_writes dev chan cfg = some
      [.inte chan false, .callback chan cfg.callback, .user_data chan cfg.user_data,
       .alarm chan (if cfg.flags &&& COUNTER_ALARM_CFG_ABSOLUTE ≠ 0 then cfg.ticks
                    else (cfg.ticks + dev.timer_hw.timerawl) % 2 ^ 32),
       .intr chan true, .inte chan true] := by
  have hlt := lt_of_channel_callback hidle
  rw [channel_callback_of_lt dev hlt] at hidle
  have hidle' : (dev.data.channels ⟨chan, hlt⟩).callback = 0 := by simpa using hidle
  simp [counter_rpi_set_alarm_writes, Nat.not_le.mpr hchan, channel_get_of_lt _ hlt, hidle']

/-- C17, as stated, fails for `cancel_alarm`: its stores on channel 1 (they
replay to the device `cancel_alarm` returns) contain a store to the channel's
callback that no store clearing the channel's interrupt-enable bit precedes. -/
theorem cancel_alarm_writes_not_masked :
    (counter_rpi_cancel_alarm (armed_dev 5 6 0) 1).map (fun r => r.dev) =
      apply_writes (armed_dev 5 6 0) (counter_rpi_cancel_alarm_writes (armed_dev 5 6 0) 1) ∧
    ¬ masked_before_touch 1 (counter_rpi_cancel_alarm_writes (armed_dev 5 6 0) 1) := by
  refine ⟨cancel_alarm_writes_replay _ _, ?_⟩
  intro h
  obtain ⟨j, hj, hw⟩ := h 1 (.callback 1 0) rfl rfl
  have hj0 : j = 0 := by omega
  subst hj0
  simp [counter_rpi_cancel_alarm_writes] at hw

/-- C17, amended: on the success path of `set_alarm` the stores (which replay to
the device `set_alarm` returns) begin with the store clearing the channel's
interrupt-enable bit, so it precedes every store to the channel's callback or
user data; `cancel_alarm` makes no store to the interrupt-enable register: its
stores are the set of the channel's bit in the armed register followed by the
store of the empty callback. -/
theorem set_alarm_masks_before_touch (dev dev' : device) (chan chan' : Nat)
    (cfg : counter_alarm_cfg)
    (hchan : chan < dev.config.info.channels)
    (hidle : channel_callback dev chan = some 0) :
    (∃ r ws, counter_rpi_set_alarm dev chan cfg = some r ∧ r.ret = 0 ∧
      counter_rpi_set_alarm_writes dev chan cfg = some ws ∧
      apply_writes dev ws = some r.dev ∧
      ws.head? = some (write.inte chan false) ∧
      masked_before_touch chan ws) ∧
    (counter_rpi_cancel_alarm dev' chan').map (fun r => r.dev) =
      apply_writes dev' (counter_rpi_cancel_alarm_writes dev' chan') ∧
    counter_rpi_cancel_alarm_writes dev' chan' = [.armed chan' true, .callback chan' 0] ∧
    (∀ w ∈ counter_rpi_cancel_alarm_writes dev' chan', ∀ c b, w ≠ write.inte c b) := by
  have hlt := lt_of_channel_callback hidle
  refine ⟨?_, cancel_alarm_writes_replay dev' chan', rfl, ?_⟩
  · have hrun := set_alarm_idle dev cfg hchan hlt hidle
    have hws := set_alarm_writes_idle dev cfg hchan hidle
    have hrep := set_alarm_writes_replay dev chan cfg
    rw [hrun, hws] at hrep
    refine ⟨_, _, hrun, rfl, hws, ?_, rfl, ?_⟩
    · simpa using hrep.symm
    · intro i w hi ht
      cases i with
      | zero =>
        simp only [List.getElem?_cons_zero, Option.some.injEq] at hi
        subst hi
        exact absurd ht (by simp [write.touches])
      | succ k => exact ⟨0, Nat.succ_pos k, rfl⟩
  · intro w hw c b
    simp only [counter_rpi_cancel_alarm_writes, List.mem_cons, List.mem_singleton,
      List.not_mem_nil, or_false] at hw
    rcases hw with rfl | rfl <;> simp

/-- C17 amended, at `set_alarm` on idle channel 2 and `cancel_alarm` on channel 1
holding a callback. -/
theorem set_alarm_masks_before_touch_witness :
    (2 < (idle_dev 40).config.info.channels ∧ channel_callback (idle_dev 40) 2 = some 0) ∧
    ((∃ r ws, counter_rpi_set_alarm (idle_dev 40) 2
          { callback := 7, ticks := 100, user_data := 9, flags := 0 } = some r ∧ r.ret = 0 ∧
      counter_rpi_set_alarm_writes (idle_dev 40) 2
          { callback := 7, ticks := 100, user_data := 9, flags := 0 } = some ws ∧
      apply_writes (idle_dev 40) ws = some r.dev ∧
      ws.head? = some (write.inte 2 false) ∧
      masked_before_touch 2 ws) ∧
    (counter_rpi_cancel_alarm (armed_dev 5 6 0) 1).map (fun r => r.dev) =
      apply_writes (armed_dev 5 6 0) (counter_rpi_cancel_alarm_writes (armed_dev 5 6 0) 1) ∧
    counter_rpi_cancel_alarm_writes (armed_dev 5 6 0) 1 = [.armed 1 true, .callback 1 0] ∧
    (∀ w ∈ counter_rpi_cancel_alarm_writes (armed_dev 5 6 0) 1, ∀ c b, w ≠ write.inte c b)) :=
  ⟨⟨by decide, by decide⟩,
    set_alarm_masks_before_touch (idle_dev 40) (armed_dev 5 6 0) 2 1
      { callback := 7, ticks := 100, user_data := 9, flags := 0 } (by decide) (by decide)⟩

/-- Outside the channel array `cancel_alarm` has no defined result: the store to
`channels[chan].callback` is out of bounds. -/
theorem cancel_alarm_of_ge (dev : device) {chan : Nat} (h : TIMER_MAX_CHANNEL ≤ chan) :
    counter_rpi_cancel_alarm dev chan = none := by
  simp [counter_rpi_cancel_alarm, channel_set_callback, Nat.not_lt.mpr h]

/-- C18, the code at the failing input: on channel index 4 of a device with four
channels `cancel_alarm` returns no error; it reaches the store to
`channels[4].callback`, outside the array, where `set_alarm` returns `-EINVAL`. -/
theorem cancel_alarm_out_of_range_undefined :
    (idle_dev 0).config.info.channels ≤ 4 ∧
    counter_rpi_cancel_alarm (idle_dev 0) 4 = none ∧
    channel_set_callback (idle_dev 0).data 4 0 = none ∧
    (counter_rpi_set_alarm (idle_dev 0) 4
      { callback := 7, ticks := 100, user_data := 9, flags := 0 }).map (fun r => r.ret)
      = some (-EINVAL) :=
  ⟨by decide, cancel_alarm_of_ge _ (by decide), rfl, by decide⟩

/-! ## Independence of the channels -/

/-- A `WRITE_BIT` on one bit leaves every other bit of a 32-bit register as it was. -/
theorem WRITE_BIT_testBit_ne (var : Nat) {bit d : Nat} (set : Bool) (hne : bit ≠ d)
    (hd : d < 32) : (WRITE_BIT var bit set).testBit d = var.testBit d := by
  have hbit : (2 ^ bit).testBit d = false := by
    rw [Nat.testBit_two_pow]
    exact decide_eq_false hne
  cases set with
  | true => simp [WRITE_BIT, BIT, hbit]
  | false =>
    have hones : (0xFFFFFFFF : Nat).testBit d = true := by
      have hmask : (0xFFFFFFFF : Nat) = 2 ^ 32 - 1 := by norm_num
      rw [hmask, Nat.testBit_two_pow_sub_one]
      exact decide_eq_true hd
    unfold WRITE_BIT not32 BIT
    simp only [Bool.false_eq_true, if_false, Nat.testBit_and, Nat.testBit_xor, hones, hbit]
    simp

theorem same_channel_refl (dev : device) (d : Nat) : same_channel dev dev d :=
  ⟨rfl, rfl, rfl, rfl⟩

/-- Stores to channel `c` of the registry and of the alarm registers, and a
change of `inte` that keeps bit `d`, leave another channel `d` looking the same. -/
theorem same_channel_of_stores (dev dev' : device) {c d : Nat} (hc : c < TIMER_MAX_CHANNEL)
    (hne : c ≠ d) (v : counter_rpi_channel_data) (a : Nat)
    (hdata : dev'.data.channels = Function.update dev.data.channels ⟨c, hc⟩ v)
    (halarm : dev'.timer_hw.alarm = Function.update dev.timer_hw.alarm ⟨c, hc⟩ a ∨
      dev'.timer_hw.alarm = dev.timer_hw.alarm)
    (hinte : dev'.timer_hw.inte.testBit d = dev.timer_hw.inte.testBit d) :
    same_channel dev dev' d := by
  by_cases hd : d < TIMER_MAX_CHANNEL
  · have hfin : (⟨d, hd⟩ : Fin TIMER_MAX_CHANNEL) ≠ ⟨c, hc⟩ := by
      simpa [Fin.ext_iff] using fun e : d = c => hne e.symm
    refine ⟨?_, ?_, ?_, hinte⟩
    · simp [channel_callback_of_lt _ hd, hdata, Function.update_noteq hfin]
    · simp [channel_user_data_of_lt _ hd, hdata, Function.update_noteq hfin]
    · rcases halarm with h | h
      · simp [alarm_get, hd, h, Function.update_noteq hfin]
      · simp [alarm_get, hd, h]
  · exact ⟨by simp [channel_callback, channel_get, hd],
      by simp [channel_user_data, channel_get, hd], by simp [alarm_get, hd], hinte⟩

/-- Whatever `set_alarm` on channel `c` returns, another channel `d` looks the same. -/
theorem set_alarm_same_channel (dev : device) {c d : Nat} (cfg : counter_alarm_cfg)
    (hc : c < TIMER_MAX_CHANNEL) (hd : d < TIMER_MAX_CHANNEL) (hne : c ≠ d) :
    ∃ r, counter_rpi_set_alarm dev c cfg = some r ∧ r.dev.config = dev.config ∧
      same_channel dev r.dev d := by
  have hd4 : d < 4 := hd
  by_cases hchan : c < dev.config.info.channels
  · by_cases hidle : (dev.data.channels ⟨c, hc⟩).callback = 0
    · have h0 : channel_callback dev c = some 0 := by
        rw [channel_callback_of_lt dev hc, hidle]
      refine ⟨_, set_alarm_idle dev cfg hchan hc h0, rfl, ?_⟩
      refine same_channel_of_stores dev _ hc hne _ _ rfl (Or.inl rfl) ?_
      show (WRITE_BIT (WRITE_BIT dev.timer_hw.inte c false) c true).testBit d = _
      rw [WRITE_BIT_testBit_ne _ _ hne (by omega), WRITE_BIT_testBit_ne _ _ hne (by omega)]
    · exact ⟨_, set_alarm_busy dev cfg hchan (channel_callback_of_lt dev hc) hidle, rfl,
        same_channel_refl dev d⟩
  · refine ⟨{ ret := -EINVAL, dev := dev, calls := [] }, ?_, rfl, same_channel_refl dev d⟩
    simp [counter_rpi_set_alarm, Nat.le_of_not_lt hchan]

/-- After `cancel_alarm` on channel `c`, another channel `d` looks the same. -/
theorem cancel_alarm_same_channel (dev : device) {c d : Nat}
    (hc : c < TIMER_MAX_CHANNEL) (hne : c ≠ d) :
    ∃ r, counter_rpi_cancel_alarm dev c = some r ∧ r.dev.config = dev.config ∧
      channel_callback r.dev c = some 0 ∧ same_channel dev r.dev d :=
  ⟨_, cancel_alarm_of_lt dev hc, rfl, by simp [channel_callback_of_lt _ hc],
    same_channel_of_stores dev _ hc hne _ 0 rfl (Or.inr rfl) rfl⟩

/-- After a run of the dispatcher on channel `c`, and at the callback call it
makes, another channel `d` looks the same. -/
theorem irq_handler_same_channel (dev : device) {c d : Nat}
    (hc : c < TIMER_MAX_CHANNEL) (hd : d < TIMER_MAX_CHANNEL) (hne : c ≠ d) :
    ∃ r, counter_rpi_irq_handler dev c = some r ∧ r.dev.config = dev.config ∧
      channel_callback r.dev c = some 0 ∧ same_channel dev r.dev d ∧
      ∀ call ∈ r.calls, call.dev = r.dev := by
  have hd4 : d < 4 := hd
  refine ⟨_, irq_handler_of_lt dev hc, rfl, by simp [channel_callback_of_lt _ hc], ?_, ?_⟩
  · refine same_channel_of_stores dev _ hc hne _ 0 rfl (Or.inr rfl) ?_
    show (WRITE_BIT dev.timer_hw.inte c false).testBit d = _
    rw [WRITE_BIT_testBit_ne _ _ hne (by omega)]
  · intro call hmem
    by_cases hcb : (dev.data.channels ⟨c, hc⟩).callback = 0
    · simp [hcb] at hmem
    · simp [hcb] at hmem
      rw [hmem]

/-- C19: for distinct valid channels `c` and `d`, `set_alarm`, `cancel_alarm` and
the dispatcher applied to `c` run, and leave the callback, user data, alarm
register and interrupt-enable bit of `d` unchanged (for the dispatcher, also in
the state in which the callback is called). -/
theorem channels_independent (dev : device) (c d : Nat) (cfg : counter_alarm_cfg)
    (hcfg : dev.config.info.channels ≤ TIMER_MAX_CHANNEL)
    (hc : c < dev.config.info.channels) (hd : d < dev.config.info.channels) (hne : c ≠ d) :
    (∃ r, counter_rpi_set_alarm dev c cfg = some r ∧ same_channel dev r.dev d) ∧
    (∃ r, counter_rpi_cancel_alarm dev c = some r ∧ same_channel dev r.dev d) ∧
    (∃ r, counter_rpi_irq_handler dev c = some r ∧ same_channel dev r.dev d ∧
      ∀ call ∈ r.calls, same_channel dev call.dev d) := by
  have hc' : c < TIMER_MAX_CHANNEL := Nat.lt_of_lt_of_le hc hcfg
  have hd' : d < TIMER_MAX_CHANNEL := Nat.lt_of_lt_of_le hd hcfg
  refine ⟨?_, ?_, ?_⟩
  · obtain ⟨r, hr, _, hs⟩ := set_alarm_same_channel dev cfg hc' hd' hne
    exact ⟨r, hr, hs⟩
  · obtain ⟨r, hr, _, _, hs⟩ := cancel_alarm_same_channel dev (d := d) hc' hne
    exact ⟨r, hr, hs⟩
  · obtain ⟨r, hr, _, _, hs, hcalls⟩ := irq_handler_same_channel dev hc' hd' hne
    exact ⟨r, hr, hs, fun call hmem => by rw [hcalls call hmem]; exact hs⟩

/-- C19 at `c = 1`, which holds a callback, and `d = 0`. -/
theorem channels_independent_witness :
    ((armed_dev 5 6 0).config.info.channels ≤ TIMER_MAX_CHANNEL ∧
      1 < (armed_dev 5 6 0).config.info.channels ∧
      0 < (armed_dev 5 6 0).config.info.channels ∧ (1 : Nat) ≠ 0) ∧
    ((∃ r, counter_rpi_set_alarm (armed_dev 5 6 0) 1
          { callback := 7, ticks := 100, user_data := 9, flags := 0 } = some r ∧
        same_channel (armed_dev 5 6 0) r.dev 0) ∧
    (∃ r, counter_rpi_cancel_alarm (armed_dev 5 6 0) 1 = some r ∧
        same_channel (armed_dev 5 6 0) r.dev 0) ∧
    (∃ r, counter_rpi_irq_handler (armed_dev 5 6 0) 1 = some r ∧
        same_channel (armed_dev 5 6 0) r.dev 0 ∧
      ∀ call ∈ r.calls, same_channel (armed_dev 5 6 0) call.dev 0)) :=
  ⟨⟨by decide, by decide, by decide, by decide⟩,
    channels_independent (armed_dev 5 6 0) 1 0
      { callback := 7, ticks := 100, user_data := 9, flags := 0 }
      (by decide) (by decide) (by decide) (by decide)⟩

/-! ## Recorded callbacks have their interrupt enabled -/

/-- The invariant passes from `dev` to `dev'` when every channel but `c` looks
the same and channel `c` satisfies it in `dev'`. -/
theorem callbacks_enabled_of_same (dev dev' : device) (c : Nat)
    (hinv : callbacks_enabled dev)
    (hsame : ∀ x, c ≠ x → x < TIMER_MAX_CHANNEL → same_channel dev dev' x)
    (hc : ∀ cb, channel_callback dev' c = some cb → cb ≠ 0 → inte_bit dev' c = true) :
    callbacks_enabled dev' := by
  intro x cb hx hcb
  by_cases hxc : c = x
  · subst hxc
    exact hc cb hx hcb
  · obtain ⟨h1, _, _, h4⟩ := hsame x hxc (lt_of_channel_callback hx)
    rw [h4]
    exact hinv x cb (h1 ▸ hx) hcb

/-- One operation on channels inside the array runs and keeps the invariant. -/
theorem step_callbacks_enabled (dev : device) (op : Op) (hop : op.in_array)
    (hinv : callbacks_enabled dev) :
    ∃ d evs, step dev op = some (d, evs) ∧ callbacks_enabled d := by
  cases op with
  | start => exact ⟨_, _, rfl, fun x cb hx hcb => hinv x cb hx hcb⟩
  | stop => exact ⟨_, _, rfl, fun x cb hx hcb => hinv x cb hx hcb⟩
  | count t => exact ⟨_, _, rfl, fun x cb hx hcb => hinv x cb hx hcb⟩
  | set_alarm chan cfg =>
    have hlt : chan < TIMER_MAX_CHANNEL := hop chan rfl
    by_cases hchan : chan < dev.config.info.channels
    · by_cases hidle : (dev.data.channels ⟨chan, hlt⟩).callback = 0
      · have h0 : channel_callback dev chan = some 0 := by
          rw [channel_callback_of_lt dev hlt, hidle]
        have hrun := set_alarm_idle dev cfg hchan hlt h0
        refine ⟨_, _, by simp only [step, hrun, Option.map_some']; rfl, ?_⟩
        refine callbacks_enabled_of_same dev _ chan hinv ?_ ?_
        · intro x hx hxlt
          obtain ⟨r', hr', _, hs⟩ := set_alarm_same_channel dev cfg hlt hxlt hx
          rw [hrun] at hr'
          cases hr'
          exact hs
        · intro cb _ _
          simp [inte_bit, WRITE_BIT_set_testBit]
      · have h1 := set_alarm_busy dev cfg hchan (channel_callback_of_lt dev hlt) hidle
        exact ⟨_, _, by simp only [step, h1, Option.map_some']; rfl, hinv⟩
    · have h1 : counter_rpi_set_alarm dev chan cfg =
          some { ret := -EINVAL, dev := dev, calls := [] } := by
        simp [counter_rpi_set_alarm, Nat.le_of_not_lt hchan]
      exact ⟨_, _, by simp only [step, h1, Option.map_some']; rfl, hinv⟩
  | cancel_alarm chan =>
    have hlt : chan < TIMER_MAX_CHANNEL := hop chan rfl
    have hrun := cancel_alarm_of_lt dev hlt
    refine ⟨_, _, by simp only [step, hrun, Option.map_some']; rfl, ?_⟩
    refine callbacks_enabled_of_same dev _ chan hinv ?_ ?_
    · intro x hx _
      obtain ⟨r', hr', _, _, hs⟩ := cancel_alarm_same_channel dev (d := x) hlt hx
      rw [hrun] at hr'
      cases hr'
      exact hs
    · intro cb hcb hne
      simp [channel_callback_of_lt _ hlt] at hcb
      exact absurd hcb.symm hne
  | irq chan =>
    have hlt : chan < TIMER_MAX_CHANNEL := hop chan rfl
    have hrun := irq_handler_of_lt dev hlt
    refine ⟨_, _, by simp only [step, hrun, Option.map_some']; rfl, ?_⟩
    refine callbacks_enabled_of_same dev _ chan hinv ?_ ?_
    · intro x hx hxlt
      obtain ⟨r', hr', _, _, hs, _⟩ := irq_handler_same_channel dev hlt hxlt hx
      rw [hrun] at hr'
      cases hr'
      exact hs
    · intro cb hcb hne
      simp [channel_callback_of_lt _ hlt] at hcb
      exact absurd hcb.symm hne

/-- A run over operations on channels inside the array completes and keeps the
invariant. -/
theorem exec_callbacks_enabled (ops : List Op) :
    ∀ dev : device, (∀ op ∈ ops, op.in_array) → callbacks_enabled dev →
      ∃ d log, exec dev ops = some (d, log) ∧ callbacks_enabled d := by
  induction ops with
  | nil => exact fun dev _ hinv => ⟨dev, [], rfl, hinv⟩
  | cons op ops ih =>
    intro dev hops hinv
    obtain ⟨d1, evs, hstep, hinv1⟩ :=
      step_callbacks_enabled dev op (hops op (List.mem_cons_self _ _)) hinv
    obtain ⟨d, log, hexec, hinvd⟩ := ih d1 (fun o ho => hops o (List.mem_cons_of_mem _ ho)) hinv1
    exact ⟨d, evs ++ log, by simp [exec, hstep, hexec], hinvd⟩

/-- C20: from the device-init state, every finite sequence of `start`, `stop`,
`set_alarm`, `cancel_alarm` and dispatcher runs on valid channel indices runs to
completion, and in the state it reaches every channel whose callback is non-empty
has its interrupt-enable bit set. -/
theorem reachable_callbacks_enabled (dev : device) (ops : List Op)
    (hcfg : dev.config.info.channels ≤ TIMER_MAX_CHANNEL)
    (hvalid : ∀ op ∈ ops, ∀ c, op.chan? = some c → c < dev.config.info.channels) :
    ∃ r0 d log, counter_rpi_timer_init dev = some r0 ∧ exec r0.dev ops = some (d, log) ∧
      ∀ c cb, channel_callback d c = some cb → cb ≠ 0 → inte_bit d c = true := by
  have hin : ∀ op ∈ ops, op.in_array :=
    fun op hop c hc => Nat.lt_of_lt_of_le (hvalid op hop c hc) hcfg
  obtain ⟨r0, h0, hinv0⟩ : ∃ r0, counter_rpi_timer_init dev = some r0 ∧
      callbacks_enabled r0.dev := by
    refine ⟨_, timer_init_eq dev, fun c cb hc hcb => ?_⟩
    have hlt := lt_of_channel_callback hc
    simp [channel_callback_of_lt _ hlt] at hc
    exact absurd hc.symm hcb
  obtain ⟨d, log, hexec, hinv⟩ := exec_callbacks_enabled ops r0.dev hin hinv0
  exact ⟨r0, d, log, h0, hexec, hinv⟩

/-- C20 on a run that starts the counter, arms channel 1, arms channel 0, fires
channel 0, stops the counter and cancels channel 3. -/
theorem reachable_callbacks_enabled_witness :
    ((armed_dev 5 6 0).config.info.channels ≤ TIMER_MAX_CHANNEL ∧
      ∀ op ∈ [Op.start,
              Op.set_alarm 1 { callback := 7, ticks := 5, user_data := 9, flags := 0 },
              Op.set_alarm 0 { callback := 7, ticks := 5, user_data := 9, flags := 1 },
              Op.irq 0, Op.stop, Op.cancel_alarm 3],
        ∀ c, op.chan? = some c → c < (armed_dev 5 6 0).config.info.channels) ∧
    ∃ r0 d log, counter_rpi_timer_init (armed_dev 5 6 0) = some r0 ∧
      exec r0.dev [Op.start,
              Op.set_alarm 1 { callback := 7, ticks := 5, user_data := 9, flags := 0 },
              Op.set_alarm 0 { callback := 7, ticks := 5, user_data := 9, flags := 1 },
              Op.irq 0, Op.stop, Op.cancel_alarm 3] = some (d, log) ∧
      ∀ c cb, channel_callback d c = some cb → cb ≠ 0 → inte_bit d c = true :=
  have hv : ∀ op ∈ [Op.start,
              Op.set_alarm 1 { callback := 7, ticks := 5, user_data := 9, flags := 0 },
              Op.set_alarm 0 { callback := 7, ticks := 5, user_data := 9, flags := 1 },
              Op.irq 0, Op.stop, Op.cancel_alarm 3],
        ∀ c, op.chan? = some c → c < (armed_dev 5 6 0).config.info.channels := by
    intro op hop c hc
    simp only [List.mem_cons, List.mem_singleton, List.not_mem_nil, or_false] at hop
    rcases hop with rfl | rfl | rfl | rfl | rfl | rfl <;>
      simp [Op.chan?] at hc <;> subst hc <;> decide
  ⟨⟨by decide, hv⟩, reachable_callbacks_enabled (armed_dev 5 6 0) _ (by decide) hv⟩

end CounterRpi
